import Mathlib

/-!
Verification of `create_icon.py`: a shallow embedding of the icon-generation
script and proofs about it.

Modelling conventions, used throughout:

* Python `float` arithmetic is modelled exactly over `ℝ` (Lean decimal
  literals such as `1.8` denote the exact rational `9/5`); `math.sin` is
  `Real.sin`, `math.pi` is `Real.pi`.  For every size exercised below the
  float computations of the script agree with their exact-real values.
* Python `int(x)` (truncation toward zero) is `pyInt`; Python floor division
  `//` on nonnegative values is `/` on `ℤ` (Euclidean division).
* A Pillow image is a pixel grid; `ImageDraw` in its default mode *replaces*
  pixel values (including the alpha component) rather than alpha-blending.
  Each draw call is a `DrawOp` with an explicit pixel footprint (`covers`):
  - a horizontal `line` of width `w` covers the x-range between its endpoints
    on the rows within `w/2` of the (truncated) y coordinate;
  - a general `line` of width `w` covers pixels within distance `w/2` of the
    segment;
  - a filled `polygon` is modelled by the convex hull of its vertices (the
    Pillow scanline fill lies inside it; no claim below depends on the
    difference);
  - a filled `ellipse` with bounding box `[x0, y0, x1, y1]` covers the pixels
    of the inscribed ellipse;
  - `putalpha m` replaces the alpha channel by the mask `m`.
  Draw calls clip to the canvas.
* `Image.new('RGBA', (s, s), (0,0,0,0))` is the all-transparent grid; Pillow
  raises `ValueError` for negative dimensions, modelled by `Option` in
  `createIconChecked`.
-/

/-- Python `int()` on a real: truncation toward zero. -/
noncomputable def pyInt (x : ℝ) : ℤ :=
  if 0 ≤ x then ⌊x⌋ else ⌈x⌉

/-- An RGBA pixel value (channels as integers, 0..255 in practice). -/
structure RGBA where
  r : ℤ
  g : ℤ
  b : ℤ
  a : ℤ
  deriving DecidableEq

/-- The fully transparent pixel `(0, 0, 0, 0)` used by `Image.new`. -/
def blankRGBA : RGBA := ⟨0, 0, 0, 0⟩

/-! ### Geometry of `create_icon` (lines 6-128 of the source) -/

/-- `center_x = size // 2`. -/
def centerX (s : ℕ) : ℤ := (s : ℤ) / 2

/-- `center_y = size // 2`. -/
def centerY (s : ℕ) : ℤ := (s : ℤ) / 2

/-- `corner_radius = size // 8`. -/
def cornerRadius (s : ℕ) : ℤ := (s : ℤ) / 8

/-- `feather_height = size // 1.8` (a float with integral value). -/
noncomputable def featherHeight (s : ℕ) : ℤ := ⌊(s : ℝ) / 1.8⌋

/-- `feather_width = feather_height // 3`. -/
noncomputable def featherWidth (s : ℕ) : ℤ := ⌊(featherHeight s : ℝ) / 3⌋

/-- `feather_x = center_x - size // 8`. -/
noncomputable def featherX (s : ℕ) : ℤ := centerX s - (s : ℤ) / 8

/-- `feather_y = center_y`. -/
noncomputable def featherY (s : ℕ) : ℤ := centerY s

/-- `shaft_width = max(2, size // 40)`. -/
def shaftWidth (s : ℕ) : ℤ := max 2 ((s : ℤ) / 40)

/-- `shaft_start_x = feather_x`. -/
noncomputable def shaftStartX (s : ℕ) : ℤ := featherX s

/-- `shaft_start_y = feather_y + feather_height // 2`. -/
noncomputable def shaftStartY (s : ℕ) : ℤ := featherY s + featherHeight s / 2

/-- `shaft_end_x = feather_x + feather_height // 8`. -/
noncomputable def shaftEndX (s : ℕ) : ℤ := featherX s + featherHeight s / 8

/-- `shaft_end_y = feather_y - feather_height // 2`. -/
noncomputable def shaftEndY (s : ℕ) : ℤ := featherY s - featherHeight s / 2

/-- `progress = i / 7.0` in the vane and barb loops. -/
noncomputable def progress7 (i : ℕ) : ℝ := (i : ℝ) / 7

/-- `offset_y = feather_y - feather_height // 2 + feather_height * progress`. -/
noncomputable def offsetY7 (s : ℕ) (i : ℕ) : ℝ :=
  ((featherY s - featherHeight s / 2 : ℤ) : ℝ) + (featherHeight s : ℝ) * progress7 i

/-- Left vane: `curve_offset = int(feather_width * sin(progress * pi) * 0.7)`. -/
noncomputable def curveOffsetL (s : ℕ) (i : ℕ) : ℤ :=
  pyInt ((featherWidth s : ℝ) * Real.sin (progress7 i * Real.pi) * 0.7)

/-- Right vane: `curve_offset = int(feather_width * sin(progress * pi) * 0.4)`. -/
noncomputable def curveOffsetR (s : ℕ) (i : ℕ) : ℤ :=
  pyInt ((featherWidth s : ℝ) * Real.sin (progress7 i * Real.pi) * 0.4)

/-- A left vane point `(feather_x - curve_offset, offset_y)`. -/
noncomputable def vaneLeft (s : ℕ) (i : ℕ) : ℝ × ℝ :=
  (((featherX s - curveOffsetL s i : ℤ) : ℝ), offsetY7 s i)

/-- A right vane point `(feather_x + curve_offset + feather_height // 12, offset_y)`. -/
noncomputable def vaneRight (s : ℕ) (i : ℕ) : ℝ × ℝ :=
  (((featherX s + curveOffsetR s i + featherHeight s / 12 : ℤ) : ℝ), offsetY7 s i)

/-- `feather_points = vane_points_left + list(reversed(vane_points_right))`. -/
noncomputable def featherPoints (s : ℕ) : List (ℝ × ℝ) :=
  ((List.range 8).map (vaneLeft s)) ++ ((List.range 8).map (vaneRight s)).reverse

/-- Barbs: `detail_y = feather_y - feather_height // 2 + feather_height * progress * 0.8`. -/
noncomputable def detailY (s : ℕ) (i : ℕ) : ℝ :=
  ((featherY s - featherHeight s / 2 : ℤ) : ℝ) + (featherHeight s : ℝ) * progress7 i * 0.8

/-- `left_end_x = feather_x - int(feather_width * sin(progress * pi) * 0.5)`. -/
noncomputable def leftBarbEndX (s : ℕ) (i : ℕ) : ℤ :=
  featherX s - pyInt ((featherWidth s : ℝ) * Real.sin (progress7 i * Real.pi) * 0.5)

/-- `right_start_x = feather_x + feather_height // 24`. -/
noncomputable def rightBarbStartX (s : ℕ) : ℤ := featherX s + featherHeight s / 24

/-- `right_end_x = feather_x + int(feather_width * sin(progress * pi) * 0.3) + feather_height // 12`. -/
noncomputable def rightBarbEndX (s : ℕ) (i : ℕ) : ℤ :=
  featherX s + pyInt ((featherWidth s : ℝ) * Real.sin (progress7 i * Real.pi) * 0.3) +
    featherHeight s / 12

/-- Barb line width `max(1, size // 80)`. -/
def barbWidth (s : ℕ) : ℤ := max 1 ((s : ℤ) / 80)

/-- The length of the `i`-th left barb, `feather_x - left_end_x`. -/
noncomputable def leftBarbLen (s : ℕ) (i : ℕ) : ℤ :=
  featherX s - leftBarbEndX s i

/-- The x-offsets of the three decorative dots from `center_x`:
`size // 4`, `size // 6`, `size // 3`. -/
def dotDX (s : ℕ) : ℕ → ℤ
  | 0 => (s : ℤ) / 4
  | 1 => (s : ℤ) / 6
  | _ => (s : ℤ) / 3

/-- The y-offsets of the three decorative dots from `center_y`:
`-size // 12`, `size // 8`, `size // 16`. -/
def dotDY (s : ℕ) : ℕ → ℤ
  | 0 => -((s : ℤ) / 12)
  | 1 => (s : ℤ) / 8
  | _ => (s : ℤ) / 16

/-- The dot radii: `max(2, size // 25)`, `max(1, size // 35)`, `max(1, size // 45)`. -/
def dotSize (s : ℕ) : ℕ → ℤ
  | 0 => max 2 ((s : ℤ) / 25)
  | 1 => max 1 ((s : ℤ) / 35)
  | _ => max 1 ((s : ℤ) / 45)

/-- `triangle_x = center_x + size // 5`. -/
def triangleX (s : ℕ) : ℤ := centerX s + (s : ℤ) / 5

/-- `triangle_y = center_y - size // 8`. -/
def triangleY (s : ℕ) : ℤ := centerY s - (s : ℤ) / 8

/-- `triangle_size = max(3, size // 30)`. -/
def triangleSize (s : ℕ) : ℤ := max 3 ((s : ℤ) / 30)

/-- The three triangle vertices. -/
def trianglePoints (s : ℕ) : List (ℝ × ℝ) :=
  [(((triangleX s : ℤ) : ℝ), ((triangleY s - triangleSize s : ℤ) : ℝ)),
   (((triangleX s - triangleSize s / 2 : ℤ) : ℝ), ((triangleY s + triangleSize s / 2 : ℤ) : ℝ)),
   (((triangleX s + triangleSize s / 2 : ℤ) : ℝ), ((triangleY s + triangleSize s / 2 : ℤ) : ℝ))]

/-- `ratio = y / size`. -/
noncomputable def gradRatio (s y : ℕ) : ℝ := (y : ℝ) / (s : ℝ)

/-- `r = int(76 * (1 - ratio) + 110 * ratio)`. -/
noncomputable def gradR (s y : ℕ) : ℤ :=
  pyInt (76 * (1 - gradRatio s y) + 110 * gradRatio s y)

/-- `g = int(84 * (1 - ratio) + 115 * ratio)`. -/
noncomputable def gradG (s y : ℕ) : ℤ :=
  pyInt (84 * (1 - gradRatio s y) + 115 * gradRatio s y)

/-- `b = int(200 * (1 - ratio) + 230 * ratio)`. -/
noncomputable def gradB (s y : ℕ) : ℤ :=
  pyInt (200 * (1 - gradRatio s y) + 230 * gradRatio s y)

/-- The gradient row color `(r, g, b, 255)`. -/
noncomputable def gradColor (s y : ℕ) : RGBA := ⟨gradR s y, gradG s y, gradB s y, 255⟩

/-! ### The rounded-rectangle mask (lines 22-28) -/

/-- The region filled by `rounded_rectangle([0, 0, size, size], radius=size//8)`:
the bounding box minus the four corner squares outside the quarter disks. -/
def roundedRegion (s : ℕ) (x y : ℤ) : Prop :=
  0 ≤ x ∧ x ≤ (s : ℤ) ∧ 0 ≤ y ∧ y ≤ (s : ℤ) ∧
    ((cornerRadius s ≤ x ∧ x ≤ (s : ℤ) - cornerRadius s) ∨
     (cornerRadius s ≤ y ∧ y ≤ (s : ℤ) - cornerRadius s) ∨
     (x - cornerRadius s) ^ 2 + (y - cornerRadius s) ^ 2 ≤ cornerRadius s ^ 2 ∨
     (x - ((s : ℤ) - cornerRadius s)) ^ 2 + (y - cornerRadius s) ^ 2 ≤ cornerRadius s ^ 2 ∨
     (x - cornerRadius s) ^ 2 + (y - ((s : ℤ) - cornerRadius s)) ^ 2 ≤ cornerRadius s ^ 2 ∨
     (x - ((s : ℤ) - cornerRadius s)) ^ 2 + (y - ((s : ℤ) - cornerRadius s)) ^ 2 ≤
       cornerRadius s ^ 2)

instance (s : ℕ) (x y : ℤ) : Decidable (roundedRegion s x y) := by
  unfold roundedRegion; exact inferInstance

/-- The `L`-mode mask image: 255 on the rounded rectangle, 0 elsewhere. -/
def iconMask (s : ℕ) (x y : ℤ) : ℤ :=
  if roundedRegion s x y then 255 else 0

/-! ### Draw operations and their pixel semantics -/

/-- One Pillow draw call. -/
inductive DrawOp where
  | hline (x0 x1 : ℤ) (y : ℝ) (w : ℤ) (c : RGBA)
  | seg (x0 y0 x1 y1 : ℤ) (w : ℤ) (c : RGBA)
  | poly (vs : List (ℝ × ℝ)) (c : RGBA)
  | ellipse (x0 y0 x1 y1 : ℤ) (c : RGBA)
  | putalpha (m : ℤ → ℤ → ℤ)

/-- The fill color of a draw op (unused for `putalpha`). -/
def DrawOp.color : DrawOp → RGBA
  | .hline _ _ _ _ c => c
  | .seg _ _ _ _ _ c => c
  | .poly _ c => c
  | .ellipse _ _ _ _ c => c
  | .putalpha _ => blankRGBA

/-- Whether a draw op is an `ellipse` call. -/
def DrawOp.isEllipseOp : DrawOp → Bool
  | .ellipse _ _ _ _ _ => true
  | _ => false

/-- The pixel footprint of a draw op. -/
def DrawOp.covers : DrawOp → ℤ → ℤ → Prop
  | .hline x0 x1 y w _, px, py =>
      min x0 x1 ≤ px ∧ px ≤ max x0 x1 ∧ |py - pyInt y| ≤ w / 2
  | .seg x0 y0 x1 y1 w _, px, py =>
      ∃ t : ℝ, 0 ≤ t ∧ t ≤ 1 ∧
        ((px : ℝ) - ((x0 : ℝ) + t * ((x1 : ℝ) - x0))) ^ 2 +
          ((py : ℝ) - ((y0 : ℝ) + t * ((y1 : ℝ) - y0))) ^ 2 ≤ ((w : ℝ) / 2) ^ 2
  | .poly vs _, px, py =>
      ((px : ℝ), (py : ℝ)) ∈ convexHull ℝ {v | v ∈ vs}
  | .ellipse x0 y0 x1 y1 _, px, py =>
      (2 * px - (x0 + x1)) ^ 2 * (y1 - y0) ^ 2 + (2 * py - (y0 + y1)) ^ 2 * (x1 - x0) ^ 2 ≤
        (x1 - x0) ^ 2 * (y1 - y0) ^ 2
  | .putalpha _, _, _ => False

/-- The canvas of a `w × h` image. -/
def inCanvas (w h : ℕ) (x y : ℤ) : Prop :=
  0 ≤ x ∧ x < (w : ℤ) ∧ 0 ≤ y ∧ y < (h : ℤ)

instance (w h : ℕ) (x y : ℤ) : Decidable (inCanvas w h x y) := by
  unfold inCanvas; exact inferInstance

open Classical in
/-- Apply one draw op to a pixel grid (pixel replacement, clipped to canvas). -/
noncomputable def applyOp (w h : ℕ) (f : ℤ → ℤ → RGBA) : DrawOp → ℤ → ℤ → RGBA
  | .putalpha m => fun x y => { f x y with a := m x y }
  | op => fun x y => if inCanvas w h x y ∧ op.covers x y then op.color else f x y

/-- Run a list of draw calls on a fresh transparent `w × h` image. -/
noncomputable def renderPx (w h : ℕ) (ops : List DrawOp) : ℤ → ℤ → RGBA :=
  ops.foldl (applyOp w h) (fun _ _ => blankRGBA)

/-- Whether an op is a drawing call (everything except `putalpha`). -/
def DrawOp.isDraw : DrawOp → Prop
  | .putalpha _ => False
  | _ => True

/-- The constraint an op must satisfy to keep the alpha value at `(x, y)`
inside a set `S`. -/
def alphaOK (w h : ℕ) (x y : ℤ) (S : Set ℤ) : DrawOp → Prop
  | .putalpha m => m x y ∈ S
  | op => inCanvas w h x y ∧ op.covers x y → op.color.a ∈ S

/-- A rendered RGBA image. -/
structure PImage where
  width : ℕ
  height : ℕ
  px : ℤ → ℤ → RGBA

/-- The alpha component at a pixel. -/
def PImage.alphaAt (img : PImage) (x y : ℤ) : ℤ := (img.px x y).a

/-! ### The draw-call sequence of `create_icon` -/

/-- The gradient rows: `draw.line([(0, y), (size, y)], fill=color)` for `y in range(size)`. -/
noncomputable def gradientOps (s : ℕ) : List DrawOp :=
  (List.range s).map fun (y : ℕ) => .hline 0 (s : ℤ) (y : ℝ) 1 (gradColor s y)

/-- The feather shaft line. -/
noncomputable def shaftOp (s : ℕ) : DrawOp :=
  .seg (shaftStartX s) (shaftStartY s) (shaftEndX s) (shaftEndY s) (shaftWidth s)
    ⟨255, 255, 255, 255⟩

/-- The filled feather polygon. -/
noncomputable def vaneOp (s : ℕ) : DrawOp :=
  .poly (featherPoints s) ⟨255, 255, 255, 255⟩

/-- The translucent dark-purple barb color `(76, 84, 200, 180)`. -/
def barbColor : RGBA := ⟨76, 84, 200, 180⟩

/-- The `i`-th left barb line. -/
noncomputable def leftBarbOp (s : ℕ) (i : ℕ) : DrawOp :=
  .hline (featherX s) (leftBarbEndX s i) (detailY s i) (barbWidth s) barbColor

/-- The `i`-th right barb line. -/
noncomputable def rightBarbOp (s : ℕ) (i : ℕ) : DrawOp :=
  .hline (rightBarbStartX s) (rightBarbEndX s i) (detailY s i) (barbWidth s) barbColor

/-- The twelve barb lines, for `i in range(1, 7)`, left then right. -/
noncomputable def barbOps (s : ℕ) : List DrawOp :=
  (List.range 6).flatMap fun i => [leftBarbOp s (i + 1), rightBarbOp s (i + 1)]

/-- The `i`-th decorative dot:
`draw.ellipse([x - r, y - r, x + r, y + r], fill=(255, 255, 255, 220))`. -/
noncomputable def dotOp (s : ℕ) (i : ℕ) : DrawOp :=
  .ellipse (centerX s + dotDX s i - dotSize s i) (centerY s + dotDY s i - dotSize s i)
    (centerX s + dotDX s i + dotSize s i) (centerY s + dotDY s i + dotSize s i)
    ⟨255, 255, 255, 220⟩

/-- The three decorative dots. -/
noncomputable def dotOps (s : ℕ) : List DrawOp := [dotOp s 0, dotOp s 1, dotOp s 2]

/-- The small filled triangle. -/
noncomputable def triangleOp (s : ℕ) : DrawOp :=
  .poly (trianglePoints s) ⟨255, 255, 255, 255⟩

/-- All draw calls after the mask is applied. -/
noncomputable def postMaskOps (s : ℕ) : List DrawOp :=
  shaftOp s :: vaneOp s :: (barbOps s ++ dotOps s ++ [triangleOp s])

/-- The full draw-call sequence of `create_icon(size)`. -/
noncomputable def iconOps (s : ℕ) : List DrawOp :=
  gradientOps s ++ DrawOp.putalpha (iconMask s) :: postMaskOps s

/-- `create_icon(size)`: the rendered `size × size` RGBA image. -/
noncomputable def createIcon (s : ℕ) : PImage :=
  ⟨s, s, renderPx s s (iconOps s)⟩

/-- `create_icon` including `Image.new`'s size check: Pillow raises `ValueError`
for a negative dimension (modelled as `none`); the script handles no errors,
so the exception propagates. -/
noncomputable def createIconChecked (z : ℤ) : Option PImage :=
  if z < 0 then none else some (createIcon z.toNat)

/-! ### Geometry of `create_menu_bar_icon` (lines 130-185) -/

/-- `feather_height = size // 1.6` (menu-bar variant). -/
noncomputable def menuFeatherHeight (s : ℕ) : ℤ := ⌊(s : ℝ) / 1.6⌋

/-- `feather_width = feather_height // 3` (menu-bar variant). -/
noncomputable def menuFeatherWidth (s : ℕ) : ℤ := ⌊(menuFeatherHeight s : ℝ) / 3⌋

/-- `shaft_width = max(1, size // 12)` (menu-bar variant). -/
def menuShaftWidth (s : ℕ) : ℤ := max 1 ((s : ℤ) / 12)

/-- `progress = i / 5.0` in the menu-bar vane loops. -/
noncomputable def progress5 (i : ℕ) : ℝ := (i : ℝ) / 5

/-- `offset_y` in the menu-bar vane loops. -/
noncomputable def menuOffsetY (s : ℕ) (i : ℕ) : ℝ :=
  ((centerY s - menuFeatherHeight s / 2 : ℤ) : ℝ) + (menuFeatherHeight s : ℝ) * progress5 i

/-- Menu-bar left vane point at progress `i / 5`. -/
noncomputable def menuLeftPoint (s : ℕ) (i : ℕ) : ℝ × ℝ :=
  (((featherX s -
      pyInt ((menuFeatherWidth s : ℝ) * Real.sin (progress5 i * Real.pi) * 0.6) : ℤ) : ℝ),
   menuOffsetY s i)

/-- Menu-bar right vane point at progress `j / 5`. -/
noncomputable def menuRightPoint (s : ℕ) (j : ℕ) : ℝ × ℝ :=
  (((featherX s +
      pyInt ((menuFeatherWidth s : ℝ) * Real.sin (progress5 j * Real.pi) * 0.3) +
      menuFeatherHeight s / 12 : ℤ) : ℝ),
   menuOffsetY s j)

/-- The twelve menu-bar vane points: left side at `i = 0..5`, then the right
side traversed with `progress = (5 - i) / 5`. -/
noncomputable def menuVanePoints (s : ℕ) : List (ℝ × ℝ) :=
  ((List.range 6).map (menuLeftPoint s)) ++ ((List.range 6).map fun i => menuRightPoint s (5 - i))

/-- The menu-bar shaft line. -/
noncomputable def menuShaftOp (s : ℕ) : DrawOp :=
  .seg (featherX s) (centerY s + menuFeatherHeight s / 2)
    (featherX s + menuFeatherHeight s / 8) (centerY s - menuFeatherHeight s / 2)
    (menuShaftWidth s) ⟨255, 255, 255, 255⟩

/-- The menu-bar vane polygon. -/
noncomputable def menuVaneOp (s : ℕ) : DrawOp :=
  .poly (menuVanePoints s) ⟨255, 255, 255, 255⟩

/-- `dot_size = max(1, size // 16)` (menu-bar variant, both dots). -/
def menuDotSize (s : ℕ) : ℤ := max 1 ((s : ℤ) / 16)

/-- The x-offsets of the two menu-bar dots from center: `size // 4`, `size // 5`. -/
def menuDotDX (s : ℕ) : ℕ → ℤ
  | 0 => (s : ℤ) / 4
  | _ => (s : ℤ) / 5

/-- The y-offsets of the two menu-bar dots from center: `-size // 12`, `size // 8`. -/
def menuDotDY (s : ℕ) : ℕ → ℤ
  | 0 => -((s : ℤ) / 12)
  | _ => (s : ℤ) / 8

/-- The `i`-th menu-bar dot (opaque white). -/
noncomputable def menuDotOp (s : ℕ) (i : ℕ) : DrawOp :=
  .ellipse (centerX s + menuDotDX s i - menuDotSize s) (centerY s + menuDotDY s i - menuDotSize s)
    (centerX s + menuDotDX s i + menuDotSize s) (centerY s + menuDotDY s i + menuDotSize s)
    ⟨255, 255, 255, 255⟩

/-- The full draw-call sequence of `create_menu_bar_icon(size)`:
no gradient, no mask, just shaft, vane and two dots. -/
noncomputable def menuOps (s : ℕ) : List DrawOp :=
  [menuShaftOp s, menuVaneOp s, menuDotOp s 0, menuDotOp s 1]

/-- `create_menu_bar_icon(size)`. -/
noncomputable def createMenuBarIcon (s : ℕ) : PImage :=
  ⟨s, s, renderPx s s (menuOps s)⟩

/-! ### The driver (lines 187-233) -/

/-- `sizes = [16, 32, 64, 128, 256, 512, 1024]`. -/
def sizes : List ℕ := [16, 32, 64, 128, 256, 512, 1024]

/-- The app-icon sizes together with their 2x variants. -/
def allIconSizes : List ℕ := [16, 32, 64, 128, 256, 512, 1024, 2048]

/-- `icon_dir`. -/
def appIconDir : String := "Promptify/Assets.xcassets/AppIcon.appiconset"

/-- `menu_iconset_dir`. -/
def menuIconsetDir : String := "Promptify/Assets.xcassets/MenuBarIcon.imageset"

/-- `icon_{size}x{size}.png`. -/
def iconFileName (n : ℕ) : String :=
  "icon_" ++ toString n ++ "x" ++ toString n ++ ".png"

/-- `icon_{size}x{size}@2x.png`. -/
def icon2xFileName (n : ℕ) : String :=
  "icon_" ++ toString n ++ "x" ++ toString n ++ "@2x.png"

/-- One file written by the driver. -/
structure FileWrite where
  dir : String
  name : String
  content : PImage

/-- Every file written by a full run of the driver, in order. -/
noncomputable def driverWrites : List FileWrite :=
  (sizes.flatMap fun n =>
    { dir := appIconDir, name := iconFileName n, content := createIcon n } ::
      (if n ≤ 512 then
        [{ dir := appIconDir, name := icon2xFileName n, content := createIcon (n * 2) }]
      else [])) ++
  [{ dir := menuIconsetDir, name := "menubar_16.png", content := createMenuBarIcon 16 },
   { dir := menuIconsetDir, name := "menubar_16@2x.png", content := createMenuBarIcon 32 },
   { dir := menuIconsetDir, name := "menubar_16@3x.png", content := createMenuBarIcon 48 }]

/-- A full run of the driver, as a function of its (empty) input. -/
noncomputable def runDriver (_ : Unit) : List FileWrite := driverWrites

/-- The content the driver leaves at a given directory/name. -/
noncomputable def contentAt (d nm : String) : Option PImage :=
  (driverWrites.find? fun fw => fw.dir == d && fw.name == nm).map FileWrite.content

/-! ### Basic lemmas about the modelling primitives -/

theorem pyInt_of_nonneg {x : ℝ} (h : 0 ≤ x) : pyInt x = ⌊x⌋ := by
  simp [pyInt, h]

theorem pyInt_nonneg {x : ℝ} (h : 0 ≤ x) : 0 ≤ pyInt x := by
  rw [pyInt_of_nonneg h]; exact Int.floor_nonneg.2 h

theorem pyInt_le_floor {x y : ℝ} (h0 : 0 ≤ x) (hxy : x ≤ y) : pyInt x ≤ ⌊y⌋ := by
  rw [pyInt_of_nonneg h0]; exact Int.floor_le_floor hxy

/-- Floor of an integer divided by a natural, as integer division. -/
theorem int_floor_div (a : ℤ) (d : ℕ) : ⌊(a : ℝ) / (d : ℝ)⌋ = a / (d : ℤ) := by
  have h : (a : ℝ) / (d : ℝ) = (((a : ℚ) / ((d : ℕ) : ℚ) : ℚ) : ℝ) := by push_cast; ring
  rw [h, Rat.floor_cast, Rat.floor_intCast_div_natCast]

theorem featherHeight_eq (s : ℕ) : featherHeight s = (5 * (s : ℤ)) / 9 := by
  have h : (s : ℝ) / 1.8 = ((5 * (s : ℤ) : ℤ) : ℝ) / ((9 : ℕ) : ℝ) := by push_cast; ring
  rw [featherHeight, h, int_floor_div]; norm_num

theorem featherWidth_eq (s : ℕ) : featherWidth s = featherHeight s / 3 := by
  have h : (featherHeight s : ℝ) / 3 = ((featherHeight s : ℤ) : ℝ) / ((3 : ℕ) : ℝ) := by
    push_cast; ring
  rw [featherWidth, h, int_floor_div]; norm_num

theorem menuFeatherHeight_eq (s : ℕ) : menuFeatherHeight s = (5 * (s : ℤ)) / 8 := by
  have h : (s : ℝ) / 1.6 = ((5 * (s : ℤ) : ℤ) : ℝ) / ((8 : ℕ) : ℝ) := by push_cast; ring
  rw [menuFeatherHeight, h, int_floor_div]; norm_num

theorem menuFeatherWidth_eq (s : ℕ) : menuFeatherWidth s = menuFeatherHeight s / 3 := by
  have h : (menuFeatherHeight s : ℝ) / 3 = ((menuFeatherHeight s : ℤ) : ℝ) / ((3 : ℕ) : ℝ) := by
    push_cast; ring
  rw [menuFeatherWidth, h, int_floor_div]; norm_num

theorem featherHeight_nonneg (s : ℕ) : 0 ≤ featherHeight s := by
  rw [featherHeight_eq]; positivity

theorem featherWidth_nonneg (s : ℕ) : 0 ≤ featherWidth s := by
  rw [featherWidth_eq]; exact Int.ediv_nonneg (featherHeight_nonneg s) (by norm_num)

theorem menuFeatherHeight_nonneg (s : ℕ) : 0 ≤ menuFeatherHeight s := by
  rw [menuFeatherHeight_eq]; positivity

theorem menuFeatherWidth_nonneg (s : ℕ) : 0 ≤ menuFeatherWidth s := by
  rw [menuFeatherWidth_eq]; exact Int.ediv_nonneg (menuFeatherHeight_nonneg s) (by norm_num)

theorem sin_progress7_nonneg {i : ℕ} (hi : i ≤ 7) : 0 ≤ Real.sin (progress7 i * Real.pi) := by
  apply Real.sin_nonneg_of_nonneg_of_le_pi
  · have : (0 : ℝ) ≤ (i : ℝ) / 7 := by positivity
    exact mul_nonneg this Real.pi_pos.le
  · rw [progress7]
    nlinarith [Real.pi_pos, (show (i : ℝ) ≤ 7 by exact_mod_cast hi)]

theorem sin_progress5_nonneg {i : ℕ} (hi : i ≤ 5) : 0 ≤ Real.sin (progress5 i * Real.pi) := by
  apply Real.sin_nonneg_of_nonneg_of_le_pi
  · have : (0 : ℝ) ≤ (i : ℝ) / 5 := by positivity
    exact mul_nonneg this Real.pi_pos.le
  · rw [progress5]
    nlinarith [Real.pi_pos, (show (i : ℝ) ≤ 5 by exact_mod_cast hi)]

/-- Bounds for the truncated sine offsets `int(fw * sin(...) * c)`:
between `0` and `⌊c * fw⌋`. -/
theorem pyInt_mul_sin_bounds (fw : ℤ) (hfw : 0 ≤ fw) (θ c : ℝ) (hs0 : 0 ≤ Real.sin θ)
    (hc : 0 ≤ c) :
    0 ≤ pyInt ((fw : ℝ) * Real.sin θ * c) ∧ pyInt ((fw : ℝ) * Real.sin θ * c) ≤ ⌊c * (fw : ℝ)⌋ := by
  have harg : 0 ≤ (fw : ℝ) * Real.sin θ * c := by
    apply mul_nonneg (mul_nonneg (by exact_mod_cast hfw) hs0) hc
  constructor
  · exact pyInt_nonneg harg
  · apply pyInt_le_floor harg
    nlinarith [Real.sin_le_one θ,
      mul_nonneg (show (0 : ℝ) ≤ (fw : ℝ) by exact_mod_cast hfw) hc]

theorem floor_seven_tenths (fw : ℤ) : ⌊(0.7 : ℝ) * (fw : ℝ)⌋ = (7 * fw) / 10 := by
  have h : (0.7 : ℝ) * (fw : ℝ) = ((7 * fw : ℤ) : ℝ) / ((10 : ℕ) : ℝ) := by push_cast; ring
  rw [h, int_floor_div]; norm_num

theorem floor_four_tenths (fw : ℤ) : ⌊(0.4 : ℝ) * (fw : ℝ)⌋ = (4 * fw) / 10 := by
  have h : (0.4 : ℝ) * (fw : ℝ) = ((4 * fw : ℤ) : ℝ) / ((10 : ℕ) : ℝ) := by push_cast; ring
  rw [h, int_floor_div]; norm_num

theorem floor_five_tenths (fw : ℤ) : ⌊(0.5 : ℝ) * (fw : ℝ)⌋ = (5 * fw) / 10 := by
  have h : (0.5 : ℝ) * (fw : ℝ) = ((5 * fw : ℤ) : ℝ) / ((10 : ℕ) : ℝ) := by push_cast; ring
  rw [h, int_floor_div]; norm_num

theorem floor_three_tenths (fw : ℤ) : ⌊(0.3 : ℝ) * (fw : ℝ)⌋ = (3 * fw) / 10 := by
  have h : (0.3 : ℝ) * (fw : ℝ) = ((3 * fw : ℤ) : ℝ) / ((10 : ℕ) : ℝ) := by push_cast; ring
  rw [h, int_floor_div]; norm_num

theorem floor_six_tenths (fw : ℤ) : ⌊(0.6 : ℝ) * (fw : ℝ)⌋ = (6 * fw) / 10 := by
  have h : (0.6 : ℝ) * (fw : ℝ) = ((6 * fw : ℤ) : ℝ) / ((10 : ℕ) : ℝ) := by push_cast; ring
  rw [h, int_floor_div]; norm_num

theorem curveOffsetL_bounds {s : ℕ} {i : ℕ} (hi : i ≤ 7) :
    0 ≤ curveOffsetL s i ∧ curveOffsetL s i ≤ (7 * featherWidth s) / 10 := by
  have h := pyInt_mul_sin_bounds (featherWidth s) (featherWidth_nonneg s)
    (progress7 i * Real.pi) 0.7 (sin_progress7_nonneg hi) (by norm_num)
  rw [floor_seven_tenths] at h
  exact h

theorem curveOffsetR_bounds {s : ℕ} {i : ℕ} (hi : i ≤ 7) :
    0 ≤ curveOffsetR s i ∧ curveOffsetR s i ≤ (4 * featherWidth s) / 10 := by
  have h := pyInt_mul_sin_bounds (featherWidth s) (featherWidth_nonneg s)
    (progress7 i * Real.pi) 0.4 (sin_progress7_nonneg hi) (by norm_num)
  rw [floor_four_tenths] at h
  exact h

theorem leftBarbOffset_bounds {s : ℕ} {i : ℕ} (hi : i ≤ 7) :
    0 ≤ featherX s - leftBarbEndX s i ∧
      featherX s - leftBarbEndX s i ≤ (5 * featherWidth s) / 10 := by
  have h := pyInt_mul_sin_bounds (featherWidth s) (featherWidth_nonneg s)
    (progress7 i * Real.pi) 0.5 (sin_progress7_nonneg hi) (by norm_num)
  rw [floor_five_tenths] at h
  rw [leftBarbEndX]
  constructor <;> omega

theorem rightBarbOffset_bounds {s : ℕ} {i : ℕ} (hi : i ≤ 7) :
    featherX s + featherHeight s / 12 ≤ rightBarbEndX s i ∧
      rightBarbEndX s i ≤ featherX s + (3 * featherWidth s) / 10 + featherHeight s / 12 := by
  have h := pyInt_mul_sin_bounds (featherWidth s) (featherWidth_nonneg s)
    (progress7 i * Real.pi) 0.3 (sin_progress7_nonneg hi) (by norm_num)
  rw [floor_three_tenths] at h
  rw [rightBarbEndX]
  constructor <;> omega

/-! ### Semantics lemmas for the draw-op interpreter -/

theorem applyOp_putalpha (w h : ℕ) (f : ℤ → ℤ → RGBA) (m : ℤ → ℤ → ℤ) (x y : ℤ) :
    applyOp w h f (.putalpha m) x y = { f x y with a := m x y } := rfl

theorem applyOp_covers {w h : ℕ} {f : ℤ → ℤ → RGBA} {op : DrawOp} (hop : op.isDraw)
    {x y : ℤ} (hxy : inCanvas w h x y ∧ op.covers x y) :
    applyOp w h f op x y = op.color := by
  cases op with
  | putalpha m => exact hop.elim
  | hline x0 x1 yy wd c => exact if_pos hxy
  | seg x0 y0 x1 y1 wd c => exact if_pos hxy
  | poly vs c => exact if_pos hxy
  | ellipse x0 y0 x1 y1 c => exact if_pos hxy

theorem applyOp_not_covers {w h : ℕ} {f : ℤ → ℤ → RGBA} {op : DrawOp} (hop : op.isDraw)
    {x y : ℤ} (hxy : ¬(inCanvas w h x y ∧ op.covers x y)) :
    applyOp w h f op x y = f x y := by
  cases op with
  | putalpha m => exact hop.elim
  | hline x0 x1 yy wd c => exact if_neg hxy
  | seg x0 y0 x1 y1 wd c => exact if_neg hxy
  | poly vs c => exact if_neg hxy
  | ellipse x0 y0 x1 y1 c => exact if_neg hxy

theorem foldl_untouched {w h : ℕ} {x y : ℤ} :
    ∀ (ops : List DrawOp) (f : ℤ → ℤ → RGBA),
      (∀ op ∈ ops, op.isDraw ∧ ¬(inCanvas w h x y ∧ op.covers x y)) →
      ops.foldl (applyOp w h) f x y = f x y
  | [], _, _ => rfl
  | op :: ops, f, hops => by
    have h1 := hops op (List.mem_cons_self op ops)
    rw [List.foldl_cons,
      foldl_untouched ops _ fun o ho => hops o (List.mem_cons_of_mem _ ho),
      applyOp_not_covers h1.1 h1.2]

theorem applyOp_alpha_mem {w h : ℕ} {x y : ℤ} {S : Set ℤ} {f : ℤ → ℤ → RGBA} {op : DrawOp}
    (hf : (f x y).a ∈ S) (hop : alphaOK w h x y S op) :
    ((applyOp w h f op) x y).a ∈ S := by
  cases op with
  | putalpha m => exact hop
  | hline x0 x1 yy wd c =>
    by_cases hxy : inCanvas w h x y ∧ (DrawOp.hline x0 x1 yy wd c).covers x y
    · rw [@applyOp_covers w h f (DrawOp.hline x0 x1 yy wd c) trivial x y hxy]; exact hop hxy
    · rw [@applyOp_not_covers w h f (DrawOp.hline x0 x1 yy wd c) trivial x y hxy]; exact hf
  | seg x0 y0 x1 y1 wd c =>
    by_cases hxy : inCanvas w h x y ∧ (DrawOp.seg x0 y0 x1 y1 wd c).covers x y
    · rw [@applyOp_covers w h f (DrawOp.seg x0 y0 x1 y1 wd c) trivial x y hxy]; exact hop hxy
    · rw [@applyOp_not_covers w h f (DrawOp.seg x0 y0 x1 y1 wd c) trivial x y hxy]; exact hf
  | poly vs c =>
    by_cases hxy : inCanvas w h x y ∧ (DrawOp.poly vs c).covers x y
    · rw [@applyOp_covers w h f (DrawOp.poly vs c) trivial x y hxy]; exact hop hxy
    · rw [@applyOp_not_covers w h f (DrawOp.poly vs c) trivial x y hxy]; exact hf
  | ellipse x0 y0 x1 y1 c =>
    by_cases hxy : inCanvas w h x y ∧ (DrawOp.ellipse x0 y0 x1 y1 c).covers x y
    · rw [@applyOp_covers w h f (DrawOp.ellipse x0 y0 x1 y1 c) trivial x y hxy]; exact hop hxy
    · rw [@applyOp_not_covers w h f (DrawOp.ellipse x0 y0 x1 y1 c) trivial x y hxy]; exact hf

theorem foldl_alpha_mem {w h : ℕ} {x y : ℤ} {S : Set ℤ} :
    ∀ (ops : List DrawOp) (f : ℤ → ℤ → RGBA), (f x y).a ∈ S →
      (∀ op ∈ ops, alphaOK w h x y S op) →
      ((ops.foldl (applyOp w h) f) x y).a ∈ S
  | [], _, hf, _ => hf
  | op :: ops, f, hf, hops => by
    rw [List.foldl_cons]
    exact foldl_alpha_mem ops _
      (applyOp_alpha_mem hf (hops op (List.mem_cons_self op ops)))
      fun o ho => hops o (List.mem_cons_of_mem _ ho)

/-! ### Footprint bounds for the primitives -/

theorem convex_fst_ge (a : ℝ) : Convex ℝ {p : ℝ × ℝ | a ≤ p.1} := by
  intro p hp q hq u v hu hv huv
  simp only [Set.mem_setOf_eq] at hp hq ⊢
  have hcoord : (u • p + v • q).1 = u * p.1 + v * q.1 := rfl
  have hsum : u * a + v * a = a := by rw [← add_mul, huv, one_mul]
  rw [hcoord]
  nlinarith [mul_le_mul_of_nonneg_left hp hu, mul_le_mul_of_nonneg_left hq hv]

theorem convex_fst_le (a : ℝ) : Convex ℝ {p : ℝ × ℝ | p.1 ≤ a} := by
  intro p hp q hq u v hu hv huv
  simp only [Set.mem_setOf_eq] at hp hq ⊢
  have hcoord : (u • p + v • q).1 = u * p.1 + v * q.1 := rfl
  have hsum : u * a + v * a = a := by rw [← add_mul, huv, one_mul]
  rw [hcoord]
  nlinarith [mul_le_mul_of_nonneg_left hp hu, mul_le_mul_of_nonneg_left hq hv]

theorem poly_covers_x_ge {vs : List (ℝ × ℝ)} {c : RGBA} {a : ℝ}
    (hvs : ∀ v ∈ vs, a ≤ v.1) {px py : ℤ}
    (hc : (DrawOp.poly vs c).covers px py) : a ≤ (px : ℝ) := by
  have hsub : {v : ℝ × ℝ | v ∈ vs} ⊆ {p : ℝ × ℝ | a ≤ p.1} := fun v hv => hvs v hv
  exact convexHull_min hsub (convex_fst_ge a) hc

theorem poly_covers_x_le {vs : List (ℝ × ℝ)} {c : RGBA} {a : ℝ}
    (hvs : ∀ v ∈ vs, v.1 ≤ a) {px py : ℤ}
    (hc : (DrawOp.poly vs c).covers px py) : (px : ℝ) ≤ a := by
  have hsub : {v : ℝ × ℝ | v ∈ vs} ⊆ {p : ℝ × ℝ | p.1 ≤ a} := fun v hv => hvs v hv
  exact convexHull_min hsub (convex_fst_le a) hc

theorem seg_covers_x_bounds {x0 y0 x1 y1 wd : ℤ} {c : RGBA} {px py : ℤ} (hw : 0 ≤ wd)
    (hc : (DrawOp.seg x0 y0 x1 y1 wd c).covers px py) :
    2 * min x0 x1 - wd ≤ 2 * px ∧ 2 * px ≤ 2 * max x0 x1 + wd := by
  obtain ⟨t, ht0, ht1, hdist⟩ := hc
  have hwR : (0 : ℝ) ≤ (wd : ℝ) := by exact_mod_cast hw
  have hXlo : ((min x0 x1 : ℤ) : ℝ) ≤ (x0 : ℝ) + t * ((x1 : ℝ) - x0) := by
    rcases le_total x0 x1 with h | h
    · have : ((min x0 x1 : ℤ) : ℝ) = (x0 : ℝ) := by norm_cast; omega
      rw [this]
      nlinarith [(show (x0 : ℝ) ≤ (x1 : ℝ) by exact_mod_cast h)]
    · have : ((min x0 x1 : ℤ) : ℝ) = (x1 : ℝ) := by norm_cast; omega
      rw [this]
      nlinarith [(show (x1 : ℝ) ≤ (x0 : ℝ) by exact_mod_cast h)]
  have hXhi : (x0 : ℝ) + t * ((x1 : ℝ) - x0) ≤ ((max x0 x1 : ℤ) : ℝ) := by
    rcases le_total x0 x1 with h | h
    · have : ((max x0 x1 : ℤ) : ℝ) = (x1 : ℝ) := by norm_cast; omega
      rw [this]
      nlinarith [(show (x0 : ℝ) ≤ (x1 : ℝ) by exact_mod_cast h)]
    · have : ((max x0 x1 : ℤ) : ℝ) = (x0 : ℝ) := by norm_cast; omega
      rw [this]
      nlinarith [(show (x1 : ℝ) ≤ (x0 : ℝ) by exact_mod_cast h)]
  have hsq : ((px : ℝ) - ((x0 : ℝ) + t * ((x1 : ℝ) - x0))) ^ 2 ≤ ((wd : ℝ) / 2) ^ 2 := by
    nlinarith [sq_nonneg ((py : ℝ) - ((y0 : ℝ) + t * ((y1 : ℝ) - y0)))]
  have habs := abs_le_of_sq_le_sq' hsq (by positivity)
  constructor
  · have hre : 2 * ((min x0 x1 : ℤ) : ℝ) - (wd : ℝ) ≤ 2 * (px : ℝ) := by
      nlinarith [habs.1]
    exact_mod_cast hre
  · have hre : 2 * (px : ℝ) ≤ 2 * ((max x0 x1 : ℤ) : ℝ) + (wd : ℝ) := by
      nlinarith [habs.2]
    exact_mod_cast hre

theorem ellipse_covers_x_bounds {x0 y0 x1 y1 : ℤ} {c : RGBA} {px py : ℤ}
    (hx : x0 < x1) (hy : y0 < y1)
    (hc : (DrawOp.ellipse x0 y0 x1 y1 c).covers px py) : x0 ≤ px ∧ px ≤ x1 := by
  simp only [DrawOp.covers] at hc
  have h1 : (2 * px - (x0 + x1)) ^ 2 * (y1 - y0) ^ 2 ≤ (x1 - x0) ^ 2 * (y1 - y0) ^ 2 := by
    nlinarith [sq_nonneg (2 * py - (y0 + y1)), sq_nonneg (x1 - x0)]
  have h2 : (2 * px - (x0 + x1)) ^ 2 ≤ (x1 - x0) ^ 2 := by
    have hDy : (0 : ℤ) < (y1 - y0) ^ 2 := pow_pos (by omega) 2
    exact le_of_mul_le_mul_right h1 hDy
  have habs := abs_le_of_sq_le_sq' h2 (by omega)
  omega

theorem ellipse_covers_y_bounds {x0 y0 x1 y1 : ℤ} {c : RGBA} {px py : ℤ}
    (hx : x0 < x1) (hy : y0 < y1)
    (hc : (DrawOp.ellipse x0 y0 x1 y1 c).covers px py) : y0 ≤ py ∧ py ≤ y1 := by
  simp only [DrawOp.covers] at hc
  have h1 : (2 * py - (y0 + y1)) ^ 2 * (x1 - x0) ^ 2 ≤ (x1 - x0) ^ 2 * (y1 - y0) ^ 2 := by
    nlinarith [sq_nonneg (2 * px - (x0 + x1)), sq_nonneg (y1 - y0)]
  have h2 : (2 * py - (y0 + y1)) ^ 2 ≤ (y1 - y0) ^ 2 := by
    have hDx : (0 : ℤ) < (x1 - x0) ^ 2 := pow_pos (by omega) 2
    have h1x : (2 * py - (y0 + y1)) ^ 2 * (x1 - x0) ^ 2 ≤ (y1 - y0) ^ 2 * (x1 - x0) ^ 2 := by
      nlinarith
    exact le_of_mul_le_mul_right h1x hDx
  have habs := abs_le_of_sq_le_sq' h2 (by omega)
  omega

/-! ### Where the post-mask draw calls can land -/

theorem featherPoints_x_bounds {s : ℕ} {v : ℝ × ℝ} (hv : v ∈ featherPoints s) :
    ((featherX s - (7 * featherWidth s) / 10 : ℤ) : ℝ) ≤ v.1 ∧
      v.1 ≤ ((featherX s + (4 * featherWidth s) / 10 + featherHeight s / 12 : ℤ) : ℝ) := by
  have hfw := featherWidth_nonneg s
  have hfh := featherHeight_nonneg s
  simp only [featherPoints, List.mem_append, List.mem_reverse, List.mem_map,
    List.mem_range] at hv
  rcases hv with ⟨i, hi, rfl⟩ | ⟨i, hi, rfl⟩
  · have hb := @curveOffsetL_bounds s i (by omega)
    constructor
    · simp only [vaneLeft]
      exact Int.cast_le.mpr (by omega)
    · simp only [vaneLeft]
      exact Int.cast_le.mpr (by omega)
  · have hb := @curveOffsetR_bounds s i (by omega)
    constructor
    · simp only [vaneRight]
      exact Int.cast_le.mpr (by omega)
    · simp only [vaneRight]
      exact Int.cast_le.mpr (by omega)

theorem trianglePoints_x_bounds {s : ℕ} {v : ℝ × ℝ} (hv : v ∈ trianglePoints s) :
    ((triangleX s - triangleSize s / 2 : ℤ) : ℝ) ≤ v.1 ∧
      v.1 ≤ ((triangleX s + triangleSize s / 2 : ℤ) : ℝ) := by
  have hts : (0 : ℤ) ≤ triangleSize s / 2 := by
    have : (3 : ℤ) ≤ triangleSize s := le_max_left _ _
    omega
  simp only [trianglePoints, List.mem_cons, List.not_mem_nil, or_false] at hv
  rcases hv with rfl | rfl | rfl <;>
    exact ⟨Int.cast_le.mpr (by omega), Int.cast_le.mpr (by omega)⟩

/-- Enumeration of the post-mask draw calls. -/
theorem mem_postMaskOps {s : ℕ} {op : DrawOp} (hop : op ∈ postMaskOps s) :
    op = shaftOp s ∨ op = vaneOp s ∨
      (∃ i, i < 6 ∧ (op = leftBarbOp s (i + 1) ∨ op = rightBarbOp s (i + 1))) ∨
      op = dotOp s 0 ∨ op = dotOp s 1 ∨ op = dotOp s 2 ∨ op = triangleOp s := by
  simp only [postMaskOps, barbOps, dotOps, List.mem_cons, List.mem_append,
    List.mem_flatMap, List.mem_range, List.mem_singleton, List.not_mem_nil, or_false] at hop
  rcases hop with rfl | rfl | (h | rfl | rfl | rfl) | rfl
  · exact Or.inl rfl
  · exact Or.inr (Or.inl rfl)
  · exact Or.inr (Or.inr (Or.inl h))
  · exact Or.inr (Or.inr (Or.inr (Or.inl rfl)))
  · exact Or.inr (Or.inr (Or.inr (Or.inr (Or.inl rfl))))
  · exact Or.inr (Or.inr (Or.inr (Or.inr (Or.inr (Or.inl rfl)))))
  · exact Or.inr (Or.inr (Or.inr (Or.inr (Or.inr (Or.inr rfl)))))

theorem postMaskOps_isDraw {s : ℕ} {op : DrawOp} (hop : op ∈ postMaskOps s) : op.isDraw := by
  rcases mem_postMaskOps hop with rfl | rfl | ⟨i, _, rfl | rfl⟩ | rfl | rfl | rfl | rfl <;>
    simp [shaftOp, vaneOp, leftBarbOp, rightBarbOp, dotOp, triangleOp, DrawOp.isDraw]

/-- Every post-mask draw call lands in the central vertical band
`corner_radius ≤ x ≤ size - corner_radius`. -/
theorem postMask_x_band {s : ℕ} (hs : 16 ≤ s) {op : DrawOp} (hop : op ∈ postMaskOps s)
    {x y : ℤ} (hc : op.covers x y) :
    cornerRadius s ≤ x ∧ x ≤ (s : ℤ) - cornerRadius s := by
  have hsz : (16 : ℤ) ≤ (s : ℤ) := by exact_mod_cast hs
  have hfh := featherHeight_eq s
  have hfw := featherWidth_eq s
  have hfx : featherX s = (s : ℤ) / 2 - (s : ℤ) / 8 := by
    simp [featherX, centerX]
  have hr : cornerRadius s = (s : ℤ) / 8 := rfl
  rcases mem_postMaskOps hop with rfl | rfl | ⟨i, hi, rfl | rfl⟩ | rfl | rfl | rfl | rfl
  · simp only [shaftOp] at hc
    have hb := seg_covers_x_bounds (by simp [shaftWidth]) hc
    simp only [shaftStartX, shaftEndX] at hb
    simp only [shaftWidth] at hb
    omega
  · simp only [vaneOp] at hc
    have hlo := poly_covers_x_ge (fun v hv => (featherPoints_x_bounds hv).1) hc
    have hhi := poly_covers_x_le (fun v hv => (featherPoints_x_bounds hv).2) hc
    have hlo2 : featherX s - (7 * featherWidth s) / 10 ≤ x := by exact_mod_cast hlo
    have hhi2 : x ≤ featherX s + (4 * featherWidth s) / 10 + featherHeight s / 12 := by
      exact_mod_cast hhi
    omega
  · simp only [leftBarbOp, DrawOp.covers] at hc
    have hb := @leftBarbOffset_bounds s (i + 1) (by omega)
    omega
  · simp only [rightBarbOp, DrawOp.covers] at hc
    have hb := @rightBarbOffset_bounds s (i + 1) (by omega)
    have hst : rightBarbStartX s = featherX s + featherHeight s / 24 := rfl
    omega
  · simp only [dotOp, dotDX, dotDY, dotSize] at hc
    have hb := ellipse_covers_x_bounds (by omega) (by omega) hc
    simp only [centerX] at hb
    omega
  · simp only [dotOp, dotDX, dotDY, dotSize] at hc
    have hb := ellipse_covers_x_bounds (by omega) (by omega) hc
    simp only [centerX] at hb
    omega
  · simp only [dotOp, dotDX, dotDY, dotSize] at hc
    have hb := ellipse_covers_x_bounds (by omega) (by omega) hc
    simp only [centerX] at hb
    omega
  · simp only [triangleOp] at hc
    have hlo := poly_covers_x_ge (fun v hv => (trianglePoints_x_bounds hv).1) hc
    have hhi := poly_covers_x_le (fun v hv => (trianglePoints_x_bounds hv).2) hc
    have hlo2 : triangleX s - triangleSize s / 2 ≤ x := by exact_mod_cast hlo
    have hhi2 : x ≤ triangleX s + triangleSize s / 2 := by exact_mod_cast hhi
    simp only [triangleX, triangleSize, centerX] at hlo2 hhi2
    omega

/-! ### The center pixel is not touched by barbs or dots -/

theorem leftBarb_not_covers_center {s : ℕ} (hs : 16 ≤ s) {i : ℕ} (hi : i ≤ 7) :
    ¬ (leftBarbOp s i).covers (centerX s) (centerY s) := by
  intro hc
  simp only [leftBarbOp, DrawOp.covers] at hc
  have hb := @leftBarbOffset_bounds s i hi
  have hsz : (16 : ℤ) ≤ (s : ℤ) := by exact_mod_cast hs
  have hfx : featherX s = (s : ℤ) / 2 - (s : ℤ) / 8 := by simp [featherX, centerX]
  have hcx : centerX s = (s : ℤ) / 2 := rfl
  omega

theorem rightBarb_not_covers_center {s : ℕ} (hs : 16 ≤ s) (hm : (s : ℤ) % 8 = 0) {i : ℕ}
    (hi : i ≤ 7) : ¬ (rightBarbOp s i).covers (centerX s) (centerY s) := by
  intro hc
  simp only [rightBarbOp, DrawOp.covers] at hc
  have hb := @rightBarbOffset_bounds s i hi
  have hsz : (16 : ℤ) ≤ (s : ℤ) := by exact_mod_cast hs
  have hfx : featherX s = (s : ℤ) / 2 - (s : ℤ) / 8 := by simp [featherX, centerX]
  have hcx : centerX s = (s : ℤ) / 2 := rfl
  have hfh := featherHeight_eq s
  have hfw := featherWidth_eq s
  have hst : rightBarbStartX s = featherX s + featherHeight s / 24 := rfl
  omega

theorem dot_not_covers_center {s : ℕ} (hs : 16 ≤ s) (i : ℕ) :
    ¬ (dotOp s i).covers (centerX s) (centerY s) := by
  intro hc
  have hsz : (16 : ℤ) ≤ (s : ℤ) := by exact_mod_cast hs
  match i with
  | 0 =>
    simp only [dotOp, dotDX, dotDY, dotSize] at hc
    have hb := ellipse_covers_x_bounds (by simp only [centerX]; omega)
      (by simp only [centerY]; omega) hc
    simp only [centerX] at hb
    omega
  | 1 =>
    simp only [dotOp, dotDX, dotDY, dotSize] at hc
    have hb := ellipse_covers_x_bounds (by simp only [centerX]; omega)
      (by simp only [centerY]; omega) hc
    simp only [centerX] at hb
    omega
  | (n + 2) =>
    simp only [dotOp, dotDX, dotDY, dotSize] at hc
    have hb := ellipse_covers_x_bounds (by simp only [centerX]; omega)
      (by simp only [centerY]; omega) hc
    simp only [centerX] at hb
    omega

/-! ### The mask region -/

theorem center_in_region {s : ℕ} (hs : 16 ≤ s) : roundedRegion s (centerX s) (centerY s) := by
  have hsz : (16 : ℤ) ≤ (s : ℤ) := by exact_mod_cast hs
  unfold roundedRegion centerX centerY cornerRadius
  exact ⟨by omega, by omega, by omega, by omega, Or.inl ⟨by omega, by omega⟩⟩

theorem band_in_region {s : ℕ} {x y : ℤ}
    (hx : cornerRadius s ≤ x ∧ x ≤ (s : ℤ) - cornerRadius s) (hcv : inCanvas s s x y) :
    roundedRegion s x y := by
  obtain ⟨h1, h2, h3, h4⟩ := hcv
  exact ⟨h1, by omega, h3, by omega, Or.inl hx⟩

/-! ### The alpha channel of `create_icon` -/

theorem createIcon_alpha_outside {s : ℕ} (hs : 16 ≤ s) {x y : ℤ} (hcv : inCanvas s s x y)
    (hout : ¬ roundedRegion s x y) : (createIcon s).alphaAt x y = 0 := by
  show (((gradientOps s ++ DrawOp.putalpha (iconMask s) :: postMaskOps s).foldl
    (applyOp s s) fun _ _ => blankRGBA) x y).a = 0
  rw [List.foldl_append, List.foldl_cons]
  rw [foldl_untouched (postMaskOps s) _ fun op hop =>
    ⟨postMaskOps_isDraw hop, fun hcov =>
      hout (band_in_region (postMask_x_band hs hop hcov.2) hcv)⟩]
  rw [applyOp_putalpha]
  simp [iconMask, hout]

theorem createIcon_alpha_inside {s : ℕ} (hs : 16 ≤ s) {x y : ℤ} (hcv : inCanvas s s x y)
    (hin : roundedRegion s x y) :
    (createIcon s).alphaAt x y ∈ ({180, 220, 255} : Set ℤ) := by
  show (((gradientOps s ++ DrawOp.putalpha (iconMask s) :: postMaskOps s).foldl
    (applyOp s s) fun _ _ => blankRGBA) x y).a ∈ ({180, 220, 255} : Set ℤ)
  rw [List.foldl_append, List.foldl_cons]
  apply foldl_alpha_mem
  · rw [applyOp_putalpha]
    simp [iconMask, hin]
  · intro op hop
    rcases mem_postMaskOps hop with rfl | rfl | ⟨i, _, rfl | rfl⟩ | rfl | rfl | rfl | rfl <;>
      simp [alphaOK, shaftOp, vaneOp, leftBarbOp, rightBarbOp, dotOp, triangleOp,
        DrawOp.color, barbColor]

theorem createIcon_alpha_center {s : ℕ} (hs : 16 ≤ s) (hm : (s : ℤ) % 8 = 0) :
    (createIcon s).alphaAt (centerX s) (centerY s) = 255 := by
  have hmem : (createIcon s).alphaAt (centerX s) (centerY s) ∈ ({255} : Set ℤ) := by
    show (((gradientOps s ++ DrawOp.putalpha (iconMask s) :: postMaskOps s).foldl
      (applyOp s s) fun _ _ => blankRGBA) (centerX s) (centerY s)).a ∈ ({255} : Set ℤ)
    rw [List.foldl_append, List.foldl_cons]
    apply foldl_alpha_mem
    · rw [applyOp_putalpha]
      simp [iconMask, center_in_region hs]
    · intro op hop
      rcases mem_postMaskOps hop with rfl | rfl | ⟨i, hi, rfl | rfl⟩ | rfl | rfl | rfl | rfl
      · simp [alphaOK, shaftOp, DrawOp.color]
      · simp [alphaOK, vaneOp, DrawOp.color]
      · exact fun hcov => absurd hcov.2 (leftBarb_not_covers_center hs (by omega))
      · exact fun hcov => absurd hcov.2 (rightBarb_not_covers_center hs hm (by omega))
      · exact fun hcov => absurd hcov.2 (dot_not_covers_center hs 0)
      · exact fun hcov => absurd hcov.2 (dot_not_covers_center hs 1)
      · exact fun hcov => absurd hcov.2 (dot_not_covers_center hs 2)
      · simp [alphaOK, triangleOp, DrawOp.color]
  simpa using hmem

/-! ### Concrete evaluations at size 16 -/

theorem featherHeight_16 : featherHeight 16 = 8 := by
  rw [featherHeight_eq]; decide

theorem featherWidth_16 : featherWidth 16 = 2 := by
  rw [featherWidth_eq, featherHeight_16]; decide

theorem featherX_16 : featherX 16 = 6 := by
  simp [featherX, centerX]

/-- The truncated y coordinate of the barbs at size 16: rows 4 through 9. -/
theorem detailRow_16 {i : ℕ} (hi1 : 1 ≤ i) (hi6 : i ≤ 6) :
    pyInt (detailY 16 i) = 3 + (i : ℤ) := by
  have hv : detailY 16 i = 4 + 8 * ((i : ℝ) / 7) * 0.8 := by
    simp only [detailY, featherY, centerY, progress7, featherHeight_16]
    norm_num
  interval_cases i <;>
    (rw [hv, pyInt_of_nonneg (by norm_num)]; norm_num)

theorem rightBarbStartX_16 : rightBarbStartX 16 = 6 := by
  simp [rightBarbStartX, featherX_16, featherHeight_16]

theorem rightBarbEndX_16_1 : rightBarbEndX 16 1 = 6 := by
  have hz : pyInt ((featherWidth 16 : ℝ) * Real.sin (progress7 1 * Real.pi) * 0.3) = 0 := by
    rw [pyInt_of_nonneg (mul_nonneg (mul_nonneg (by rw [featherWidth_16]; norm_num)
      (sin_progress7_nonneg (by norm_num))) (by norm_num))]
    rw [Int.floor_eq_zero_iff]
    constructor
    · exact mul_nonneg (mul_nonneg (by rw [featherWidth_16]; norm_num)
        (sin_progress7_nonneg (by norm_num))) (by norm_num)
    · rw [featherWidth_16]
      nlinarith [Real.sin_le_one (progress7 1 * Real.pi),
        sin_progress7_nonneg (i := 1) (by norm_num)]
  rw [rightBarbEndX, hz, featherX_16, featherHeight_16]
  decide

theorem rightBarb_16_1_covers : (rightBarbOp 16 1).covers 6 4 := by
  simp only [rightBarbOp, DrawOp.covers, rightBarbStartX_16, rightBarbEndX_16_1]
  refine ⟨by norm_num, by norm_num, ?_⟩
  rw [detailRow_16 (by norm_num) (by norm_num)]
  decide

/-- At size 16 the barbs at index 2..6 lie on rows 5..9 and miss pixel (6, 4). -/
theorem barb_16_not_covers_64 {i : ℕ} (hi2 : 2 ≤ i) (hi6 : i ≤ 6) :
    ¬ (leftBarbOp 16 i).covers 6 4 ∧ ¬ (rightBarbOp 16 i).covers 6 4 := by
  have hrow := detailRow_16 (by omega) hi6
  constructor
  · intro hc
    simp only [leftBarbOp, DrawOp.covers, hrow] at hc
    have hb : barbWidth 16 / 2 = 0 := by decide
    rw [hb] at hc
    have h0 := abs_nonpos_iff.mp hc.2.2
    omega
  · intro hc
    simp only [rightBarbOp, DrawOp.covers, hrow] at hc
    have hb : barbWidth 16 / 2 = 0 := by decide
    rw [hb] at hc
    have h0 := abs_nonpos_iff.mp hc.2.2
    omega

theorem dots_16_not_covers_64 (i : ℕ) : ¬ (dotOp 16 i).covers 6 4 := by
  match i with
  | 0 => simp only [dotOp, dotDX, dotDY, dotSize, DrawOp.covers]; decide
  | 1 => simp only [dotOp, dotDX, dotDY, dotSize, DrawOp.covers]; decide
  | (n + 2) => simp only [dotOp, dotDX, dotDY, dotSize, DrawOp.covers]; decide

theorem triangle_16_not_covers_64 : ¬ (triangleOp 16).covers 6 4 := by
  intro hc
  simp only [triangleOp] at hc
  have h10 : ∀ v ∈ trianglePoints 16, (10 : ℝ) ≤ v.1 := by
    intro v hv
    simp only [trianglePoints, List.mem_cons, List.not_mem_nil, or_false] at hv
    rcases hv with rfl | rfl | rfl <;> norm_num [triangleX, triangleY, triangleSize, centerX]
  have := poly_covers_x_ge h10 hc
  norm_num at this

/-- The plan of `create_icon(16)` splits as: everything up to the first right
barb, then the remaining fourteen draw calls. -/
theorem iconOps_16_split :
    iconOps 16 =
      (gradientOps 16 ++ [DrawOp.putalpha (iconMask 16), shaftOp 16, vaneOp 16,
        leftBarbOp 16 1]) ++ rightBarbOp 16 1 ::
      ([leftBarbOp 16 2, rightBarbOp 16 2, leftBarbOp 16 3, rightBarbOp 16 3,
        leftBarbOp 16 4, rightBarbOp 16 4, leftBarbOp 16 5, rightBarbOp 16 5,
        leftBarbOp 16 6, rightBarbOp 16 6] ++ dotOps 16 ++ [triangleOp 16]) := by
  simp [iconOps, postMaskOps, barbOps, List.range_succ]

/-- The pixel (6, 4) of `create_icon(16)` is the barb color (76, 84, 200, 180):
the right barb at progress 1/7 is the last draw call covering it. -/
theorem createIcon_16_px_64 : (createIcon 16).px 6 4 = barbColor := by
  show ((iconOps 16).foldl (applyOp 16 16) fun _ _ => blankRGBA) 6 4 = barbColor
  rw [iconOps_16_split, List.foldl_append, List.foldl_cons]
  rw [foldl_untouched]
  · rw [applyOp_covers (by simp [rightBarbOp, DrawOp.isDraw])
      ⟨by decide, rightBarb_16_1_covers⟩]
    rfl
  · intro op hop
    simp only [List.mem_append, List.mem_cons, dotOps, List.not_mem_nil, or_false] at hop
    rcases hop with ((rfl | rfl | rfl | rfl | rfl | rfl | rfl | rfl | rfl | rfl) |
      rfl | rfl | rfl) | rfl
    · exact ⟨by simp [leftBarbOp, DrawOp.isDraw],
        fun hc => (barb_16_not_covers_64 (by norm_num) (by norm_num)).1 hc.2⟩
    · exact ⟨by simp [rightBarbOp, DrawOp.isDraw],
        fun hc => (barb_16_not_covers_64 (by norm_num) (by norm_num)).2 hc.2⟩
    · exact ⟨by simp [leftBarbOp, DrawOp.isDraw],
        fun hc => (barb_16_not_covers_64 (by norm_num) (by norm_num)).1 hc.2⟩
    · exact ⟨by simp [rightBarbOp, DrawOp.isDraw],
        fun hc => (barb_16_not_covers_64 (by norm_num) (by norm_num)).2 hc.2⟩
    · exact ⟨by simp [leftBarbOp, DrawOp.isDraw],
        fun hc => (barb_16_not_covers_64 (by norm_num) (by norm_num)).1 hc.2⟩
    · exact ⟨by simp [rightBarbOp, DrawOp.isDraw],
        fun hc => (barb_16_not_covers_64 (by norm_num) (by norm_num)).2 hc.2⟩
    · exact ⟨by simp [leftBarbOp, DrawOp.isDraw],
        fun hc => (barb_16_not_covers_64 (by norm_num) (by norm_num)).1 hc.2⟩
    · exact ⟨by simp [rightBarbOp, DrawOp.isDraw],
        fun hc => (barb_16_not_covers_64 (by norm_num) (by norm_num)).2 hc.2⟩
    · exact ⟨by simp [leftBarbOp, DrawOp.isDraw],
        fun hc => (barb_16_not_covers_64 (by norm_num) (by norm_num)).1 hc.2⟩
    · exact ⟨by simp [rightBarbOp, DrawOp.isDraw],
        fun hc => (barb_16_not_covers_64 (by norm_num) (by norm_num)).2 hc.2⟩
    · exact ⟨by simp [dotOp, DrawOp.isDraw], fun hc => dots_16_not_covers_64 0 hc.2⟩
    · exact ⟨by simp [dotOp, DrawOp.isDraw], fun hc => dots_16_not_covers_64 1 hc.2⟩
    · exact ⟨by simp [dotOp, DrawOp.isDraw], fun hc => dots_16_not_covers_64 2 hc.2⟩
    · exact ⟨by simp [triangleOp, DrawOp.isDraw], fun hc => triangle_16_not_covers_64 hc.2⟩

/-! ### Claim C1 -/

/-- Claim C1, as stated, is false: at size 16 (a size in the fixed list) the
pixel (6, 4) lies inside the rounded-rectangle region but the returned image
has alpha 180 there, not 255 — the translucent barb lines are drawn *after*
the mask is applied and replace the alpha channel. -/
theorem C1_counterexample :
    16 ∈ sizes ∧ inCanvas 16 16 6 4 ∧ roundedRegion 16 6 4 ∧
      (createIcon 16).alphaAt 6 4 = 180 ∧ ¬ (createIcon 16).alphaAt 6 4 = 255 := by
  refine ⟨by norm_num [sizes], by decide, by decide, ?_, ?_⟩
  · show ((createIcon 16).px 6 4).a = 180
    rw [createIcon_16_px_64]
    rfl
  · show ¬ ((createIcon 16).px 6 4).a = 255
    rw [createIcon_16_px_64]
    decide

/-- Claim C1 (amended): for every size in the fixed list, `create_icon(size)`
is exactly size×size, its alpha channel is 0 at every canvas pixel outside the
rounded-rectangle region of corner radius size//8, every canvas pixel inside
the region has alpha 180, 220 or 255 (the barb, dot and opaque fill alphas),
and the exact center pixel has alpha 255. -/
theorem C1_mask_alpha :
    ∀ s ∈ sizes, (createIcon s).width = s ∧ (createIcon s).height = s ∧
      (∀ x y : ℤ, inCanvas s s x y →
        (¬ roundedRegion s x y → (createIcon s).alphaAt x y = 0) ∧
        (roundedRegion s x y → (createIcon s).alphaAt x y ∈ ({180, 220, 255} : Set ℤ))) ∧
      (createIcon s).alphaAt (centerX s) (centerY s) = 255 := by
  intro s hs
  have h16 : 16 ≤ s := by fin_cases hs <;> norm_num
  have hm : (s : ℤ) % 8 = 0 := by fin_cases hs <;> decide
  exact ⟨rfl, rfl,
    fun x y hcv => ⟨createIcon_alpha_outside h16 hcv, createIcon_alpha_inside h16 hcv⟩,
    createIcon_alpha_center h16 hm⟩

/-- Witness for C1_mask_alpha at size 16: the corner pixel (0,0) is transparent
and the center pixel (8,8) is opaque. -/
theorem C1_witness :
    16 ∈ sizes ∧ (createIcon 16).width = 16 ∧ (createIcon 16).height = 16 ∧
      (createIcon 16).alphaAt 0 0 = 0 ∧ (createIcon 16).alphaAt 8 8 = 255 := by
  have h := C1_mask_alpha 16 (by norm_num [sizes])
  refine ⟨by norm_num [sizes], h.1, h.2.1, ?_, ?_⟩
  · exact (h.2.2.1 0 0 (by decide)).1 (by decide)
  · have hc := h.2.2.2
    have hx : centerX 16 = 8 := by decide
    have hy : centerY 16 = 8 := by decide
    rwa [hx, hy] at hc

/-! ### The gradient rows -/

theorem gradR_eq {s y : ℕ} (hs : 0 < s) :
    gradR s y = (76 * (s : ℤ) + 34 * (y : ℤ)) / (s : ℤ) := by
  have hsR : (0 : ℝ) < (s : ℝ) := by exact_mod_cast hs
  have harg : 76 * (1 - gradRatio s y) + 110 * gradRatio s y =
      ((76 * (s : ℤ) + 34 * (y : ℤ) : ℤ) : ℝ) / ((s : ℕ) : ℝ) := by
    simp only [gradRatio]
    push_cast
    field_simp
    ring
  rw [gradR, harg, pyInt_of_nonneg (by positivity), int_floor_div]

theorem gradG_eq {s y : ℕ} (hs : 0 < s) :
    gradG s y = (84 * (s : ℤ) + 31 * (y : ℤ)) / (s : ℤ) := by
  have hsR : (0 : ℝ) < (s : ℝ) := by exact_mod_cast hs
  have harg : 84 * (1 - gradRatio s y) + 115 * gradRatio s y =
      ((84 * (s : ℤ) + 31 * (y : ℤ) : ℤ) : ℝ) / ((s : ℕ) : ℝ) := by
    simp only [gradRatio]
    push_cast
    field_simp
    ring
  rw [gradG, harg, pyInt_of_nonneg (by positivity), int_floor_div]

theorem gradB_eq {s y : ℕ} (hs : 0 < s) :
    gradB s y = (200 * (s : ℤ) + 30 * (y : ℤ)) / (s : ℤ) := by
  have hsR : (0 : ℝ) < (s : ℝ) := by exact_mod_cast hs
  have harg : 200 * (1 - gradRatio s y) + 230 * gradRatio s y =
      ((200 * (s : ℤ) + 30 * (y : ℤ) : ℤ) : ℝ) / ((s : ℕ) : ℝ) := by
    simp only [gradRatio]
    push_cast
    field_simp
    ring
  rw [gradB, harg, pyInt_of_nonneg (by positivity), int_floor_div]

theorem gradColor_top {s : ℕ} (hs : 0 < s) : gradColor s 0 = ⟨76, 84, 200, 255⟩ := by
  have hne : (s : ℤ) ≠ 0 := by exact_mod_cast hs.ne'
  have hr : gradR s 0 = 76 := by
    rw [gradR_eq hs]
    simp [Int.mul_ediv_cancel _ hne]
  have hg : gradG s 0 = 84 := by
    rw [gradG_eq hs]
    simp [Int.mul_ediv_cancel _ hne]
  have hb : gradB s 0 = 200 := by
    rw [gradB_eq hs]
    simp [Int.mul_ediv_cancel _ hne]
  simp [gradColor, hr, hg, hb]

theorem gradColor_bottom {s : ℕ} (hs : 34 ≤ s) :
    gradColor s (s - 1) = ⟨109, 114, 229, 255⟩ := by
  have hs0 : (0 : ℝ) < (s : ℝ) := by
    have : 0 < s := by omega
    exact_mod_cast this
  have hsR : (34 : ℝ) ≤ (s : ℝ) := by exact_mod_cast hs
  have hy : ((s - 1 : ℕ) : ℝ) = (s : ℝ) - 1 := by
    push_cast [Nat.cast_sub (by omega : 1 ≤ s)]
    ring
  have h34 : 34 / (s : ℝ) ≤ 1 := by rw [div_le_one hs0]; linarith
  have hpos34 : 0 < 34 / (s : ℝ) := by positivity
  have hpos31 : 0 < 31 / (s : ℝ) := by positivity
  have h31 : 31 / (s : ℝ) ≤ 1 := by rw [div_le_one hs0]; linarith
  have hpos30 : 0 < 30 / (s : ℝ) := by positivity
  have h30 : 30 / (s : ℝ) ≤ 1 := by rw [div_le_one hs0]; linarith
  have hr : gradR s (s - 1) = 109 := by
    have hval : 76 * (1 - gradRatio s (s - 1)) + 110 * gradRatio s (s - 1) =
        110 - 34 / (s : ℝ) := by
      rw [gradRatio, hy]
      field_simp
      ring
    rw [gradR, hval, pyInt_of_nonneg (by linarith), Int.floor_eq_iff]
    push_cast
    constructor <;> linarith
  have hg : gradG s (s - 1) = 114 := by
    have hval : 84 * (1 - gradRatio s (s - 1)) + 115 * gradRatio s (s - 1) =
        115 - 31 / (s : ℝ) := by
      rw [gradRatio, hy]
      field_simp
      ring
    rw [gradG, hval, pyInt_of_nonneg (by linarith), Int.floor_eq_iff]
    push_cast
    constructor <;> linarith
  have hb : gradB s (s - 1) = 229 := by
    have hval : 200 * (1 - gradRatio s (s - 1)) + 230 * gradRatio s (s - 1) =
        230 - 30 / (s : ℝ) := by
      rw [gradRatio, hy]
      field_simp
      ring
    rw [gradB, hval, pyInt_of_nonneg (by linarith), Int.floor_eq_iff]
    push_cast
    constructor <;> linarith
  simp [gradColor, hr, hg, hb]

/-! ### Claim C2 -/

/-- Claim C2, as stated, is false: at size 16 the bottom gradient row
(y = 15) is (107, 113, 228), which differs from the second endpoint
(110, 115, 230) by (3, 2, 2) — more than integer rounding; the interpolation
is evaluated at ratio (size-1)/size, never at 1. -/
theorem C2_counterexample :
    0 < 16 ∧ 16 ∈ sizes ∧
      gradR 16 15 = 107 ∧ gradG 16 15 = 113 ∧ gradB 16 15 = 228 ∧
      ¬ (|(110 : ℤ) - gradR 16 15| ≤ 1 ∧ |(115 : ℤ) - gradG 16 15| ≤ 1 ∧
         |(230 : ℤ) - gradB 16 15| ≤ 1) := by
  have hr : gradR 16 15 = 107 := by rw [gradR_eq (by norm_num)]; decide
  have hg : gradG 16 15 = 113 := by rw [gradG_eq (by norm_num)]; decide
  have hb : gradB 16 15 = 228 := by rw [gradB_eq (by norm_num)]; decide
  refine ⟨by norm_num, by norm_num [sizes], hr, hg, hb, ?_⟩
  rw [hr, hg, hb]
  decide

/-- Claim C2 (amended): for every positive size, row y of the gradient is the
horizontal line op with channels ⌊c0 + Δ·y/size⌋ (the exact floored linear
interpolation of (76,84,200) → (110,115,230) as a function of y/size); the top
row is exactly (76, 84, 200); the bottom row is the interpolation at
(size-1)/size, namely (109, 114, 229) for every size ≥ 34 — within one unit of
the second endpoint — while for smaller sizes it falls short by up to
⌈Δ/size⌉ (e.g. (107, 113, 228) at size 16). -/
theorem C2_gradient (s : ℕ) (hs : 0 < s) :
    (∀ y : ℕ, y < s →
      DrawOp.hline 0 (s : ℤ) (y : ℝ) 1 (gradColor s y) ∈ iconOps s ∧
      gradR s y = (76 * (s : ℤ) + 34 * (y : ℤ)) / (s : ℤ) ∧
      gradG s y = (84 * (s : ℤ) + 31 * (y : ℤ)) / (s : ℤ) ∧
      gradB s y = (200 * (s : ℤ) + 30 * (y : ℤ)) / (s : ℤ)) ∧
    gradColor s 0 = ⟨76, 84, 200, 255⟩ ∧
    (34 ≤ s → gradColor s (s - 1) = ⟨109, 114, 229, 255⟩) := by
  refine ⟨fun y hy => ⟨?_, gradR_eq hs, gradG_eq hs, gradB_eq hs⟩,
    gradColor_top hs, fun h34 => gradColor_bottom h34⟩
  apply List.mem_append_left
  simp only [gradientOps, List.mem_map, List.mem_range]
  exact ⟨y, hy, rfl⟩

/-- Witness for C2_gradient at size 64. -/
theorem C2_witness :
    0 < 64 ∧ 0 < 64 ∧ 34 ≤ 64 ∧
      DrawOp.hline 0 (64 : ℤ) ((0 : ℕ) : ℝ) 1 (gradColor 64 0) ∈ iconOps 64 ∧
      gradColor 64 0 = ⟨76, 84, 200, 255⟩ ∧
      gradColor 64 (64 - 1) = ⟨109, 114, 229, 255⟩ := by
  have h := C2_gradient 64 (by norm_num)
  exact ⟨by norm_num, by norm_num, by norm_num, (h.1 0 (by norm_num)).1, h.2.1,
    h.2.2 (by norm_num)⟩

/-! ### Claim C5 -/

theorem gradientOps_no_ellipse (s : ℕ) :
    (gradientOps s).filter (fun op => op.isEllipseOp) = [] := by
  simp [gradientOps, List.filter_map, Function.comp, DrawOp.isEllipseOp]

/-- The only ellipse draw calls of `create_icon` are the three decorative dots. -/
theorem iconOps_ellipses (s : ℕ) :
    (iconOps s).filter (fun op => op.isEllipseOp) = [dotOp s 0, dotOp s 1, dotOp s 2] := by
  rw [iconOps, List.filter_append, gradientOps_no_ellipse]
  simp [postMaskOps, barbOps, dotOps, List.range_succ, shaftOp, vaneOp, leftBarbOp,
    rightBarbOp, dotOp, triangleOp, DrawOp.isEllipseOp]

/-- Claim C5, as stated, is false: at size 16 (a size in the fixed list) the
medium and smallest dot radii coincide (max(1, 16//35) = max(1, 16//45) = 1),
so the three radii are not pairwise distinct. -/
theorem C5_counterexample :
    16 ∈ allIconSizes ∧ dotSize 16 0 = 2 ∧ dotSize 16 1 = 1 ∧ dotSize 16 2 = 1 ∧
      ¬ (dotSize 16 0 ≠ dotSize 16 1 ∧ dotSize 16 0 ≠ dotSize 16 2 ∧
         dotSize 16 1 ≠ dotSize 16 2) := by
  decide

/-- Claim C5 (amended): for every size in the fixed list and its 2x variants,
`create_icon` draws exactly 3 filled circles — the ellipse calls of the plan
are precisely the three dots, centered at the fixed offsets from center — with
weakly decreasing radii (largest strictly above medium); the medium and
smallest radii are distinct exactly for sizes ≥ 128 and coincide at sizes
16, 32 and 64. -/
theorem C5_dots :
    ∀ s ∈ allIconSizes,
      (iconOps s).filter (fun op => op.isEllipseOp) = [dotOp s 0, dotOp s 1, dotOp s 2] ∧
      dotSize s 1 < dotSize s 0 ∧ dotSize s 2 ≤ dotSize s 1 ∧
      (128 ≤ s ↔ dotSize s 2 < dotSize s 1) := by
  intro s hs
  refine ⟨iconOps_ellipses s, ?_⟩
  fin_cases hs <;> refine ⟨by decide, by decide, by decide⟩

/-- Witness for C5_dots at size 16. -/
theorem C5_witness :
    16 ∈ allIconSizes ∧
      ((iconOps 16).filter (fun op => op.isEllipseOp) =
        [dotOp 16 0, dotOp 16 1, dotOp 16 2] ∧
      dotSize 16 1 < dotSize 16 0 ∧ dotSize 16 2 ≤ dotSize 16 1 ∧
      (128 ≤ 16 ↔ dotSize 16 2 < dotSize 16 1)) :=
  ⟨by decide, C5_dots 16 (by decide)⟩

/-! ### Claim C6 -/

theorem leftBarbLen_eq (s i : ℕ) :
    leftBarbLen s i =
      pyInt ((featherWidth s : ℝ) * Real.sin (progress7 i * Real.pi) * 0.5) := by
  simp [leftBarbLen, leftBarbEndX]

theorem pyInt_mono_nonneg {x y : ℝ} (hx : 0 ≤ x) (hxy : x ≤ y) : pyInt x ≤ pyInt y := by
  rw [pyInt_of_nonneg hx, pyInt_of_nonneg (hx.trans hxy)]
  exact Int.floor_le_floor hxy

theorem sin_progress7_mono {i j : ℕ} (hij : i ≤ j) (hj : j ≤ 3) :
    Real.sin (progress7 i * Real.pi) ≤ Real.sin (progress7 j * Real.pi) := by
  have hiR : (i : ℝ) ≤ (j : ℝ) := by exact_mod_cast hij
  have hjR : (j : ℝ) ≤ 3 := by exact_mod_cast hj
  have hpi := Real.pi_pos
  apply Real.strictMonoOn_sin.monotoneOn
  · constructor <;> simp only [progress7] <;> nlinarith [Nat.cast_nonneg (α := ℝ) i]
  · constructor <;> simp only [progress7] <;> nlinarith [Nat.cast_nonneg (α := ℝ) j]
  · simp only [progress7]
    nlinarith

/-- The sine weighting is symmetric: the barb lengths at progress i/7 and
(7-i)/7 agree exactly. -/
theorem leftBarbLen_symm {s : ℕ} {i : ℕ} (hi : i ≤ 7) :
    leftBarbLen s (7 - i) = leftBarbLen s i := by
  rw [leftBarbLen_eq, leftBarbLen_eq]
  have hcast : ((7 - i : ℕ) : ℝ) = 7 - (i : ℝ) := by
    push_cast [Nat.cast_sub hi]
    ring
  have harg : progress7 (7 - i) * Real.pi = Real.pi - progress7 i * Real.pi := by
    simp only [progress7, hcast]
    ring
  rw [harg, Real.sin_pi_sub]

theorem leftBarbLen_mono {s : ℕ} {i j : ℕ} (hij : i ≤ j) (hj : j ≤ 3) :
    leftBarbLen s i ≤ leftBarbLen s j := by
  rw [leftBarbLen_eq, leftBarbLen_eq]
  have hfw : (0 : ℝ) ≤ (featherWidth s : ℝ) := by exact_mod_cast featherWidth_nonneg s
  apply pyInt_mono_nonneg
  · exact mul_nonneg (mul_nonneg hfw (sin_progress7_nonneg (by omega))) (by norm_num)
  · nlinarith [sin_progress7_mono hij hj, sin_progress7_nonneg (i := i) (by omega)]

theorem featherWidth_1024 : featherWidth 1024 = 189 := by
  rw [featherWidth_eq, featherHeight_eq]
  decide

/-- Claim C6, as stated, is false: the barb lengths do not decrease along the
feather — at size 1024 the first left barb is 41-42 pixels long while the
second is at least 43 pixels, because sin(2π/7) > sin(π/7). -/
theorem C6_counterexample : leftBarbLen 1024 1 < leftBarbLen 1024 2 := by
  have hfw := featherWidth_1024
  have hpi := Real.pi_pos
  have hs1 : (0 : ℝ) ≤ Real.sin (progress7 1 * Real.pi) := sin_progress7_nonneg (by norm_num)
  have hub : leftBarbLen 1024 1 ≤ 42 := by
    rw [leftBarbLen_eq, hfw]
    have harg0 : (0 : ℝ) ≤ ((189 : ℤ) : ℝ) * Real.sin (progress7 1 * Real.pi) * 0.5 := by
      push_cast
      nlinarith
    rw [pyInt_of_nonneg harg0]
    have hlt : ((189 : ℤ) : ℝ) * Real.sin (progress7 1 * Real.pi) * 0.5 < 43 := by
      have hsin := Real.sin_lt (show (0 : ℝ) < progress7 1 * Real.pi by
        simp only [progress7]; positivity)
      have hpi2 : Real.pi < 3.15 := Real.pi_lt_d2
      simp only [progress7] at hsin ⊢
      push_cast
      nlinarith
    have := Int.floor_lt.2 (show ((189 : ℤ) : ℝ) * Real.sin (progress7 1 * Real.pi) * 0.5 <
      ((43 : ℤ) : ℝ) by exact_mod_cast hlt)
    omega
  have hlb : (43 : ℤ) ≤ leftBarbLen 1024 2 := by
    rw [leftBarbLen_eq, hfw]
    have hsqrt : (1.4 : ℝ) ≤ Real.sqrt 2 := by
      nlinarith [Real.sq_sqrt (show (0 : ℝ) ≤ 2 by norm_num), Real.sqrt_nonneg 2]
    have hmono : Real.sin (Real.pi / 4) ≤ Real.sin (progress7 2 * Real.pi) := by
      apply Real.strictMonoOn_sin.monotoneOn
      · constructor <;> nlinarith
      · constructor <;> simp only [progress7] <;> push_cast <;> nlinarith
      · simp only [progress7]
        push_cast
        nlinarith
    rw [Real.sin_pi_div_four] at hmono
    have harg : (43 : ℝ) ≤ ((189 : ℤ) : ℝ) * Real.sin (progress7 2 * Real.pi) * 0.5 := by
      push_cast
      nlinarith
    rw [pyInt_of_nonneg (by push_cast; nlinarith)]
    exact Int.le_floor.2 (by exact_mod_cast harg)
  omega

/-- Claim C6 (amended): for every positive size, `create_icon` draws exactly 6
pairs of barb lines (left and right, at progress i/7 for i = 1..6, in order),
all colored (76, 84, 200, 180); the rows are evenly spaced (successive
detail_y values differ by the constant feather_height·0.8/7); and the left
barb lengths follow the sine weighting: they are symmetric about the middle
(length at i equals length at 7-i) and weakly increase from i = 1 to i = 3 —
they are not monotonically decreasing. -/
theorem C6_barbs (s : ℕ) (hs : 0 < s) :
    barbOps s = [leftBarbOp s 1, rightBarbOp s 1, leftBarbOp s 2, rightBarbOp s 2,
      leftBarbOp s 3, rightBarbOp s 3, leftBarbOp s 4, rightBarbOp s 4,
      leftBarbOp s 5, rightBarbOp s 5, leftBarbOp s 6, rightBarbOp s 6] ∧
    (∀ i : ℕ, (leftBarbOp s i).color = barbColor ∧ (rightBarbOp s i).color = barbColor) ∧
    (∀ i : ℕ, detailY s (i + 1) - detailY s i = (featherHeight s : ℝ) * 0.8 / 7) ∧
    (∀ i : ℕ, i ≤ 7 → leftBarbLen s (7 - i) = leftBarbLen s i) ∧
    (∀ i j : ℕ, i ≤ j → j ≤ 3 → leftBarbLen s i ≤ leftBarbLen s j) := by
  refine ⟨?_, fun i => ⟨rfl, rfl⟩, fun i => ?_, fun i hi => leftBarbLen_symm hi,
    fun i j hij hj => leftBarbLen_mono hij hj⟩
  · simp [barbOps, List.range_succ]
  · simp only [detailY, progress7]
    push_cast
    ring

/-- Witness for C6_barbs at size 16. -/
theorem C6_witness :
    0 < 16 ∧ (leftBarbOp 16 1).color = barbColor ∧
      detailY 16 2 - detailY 16 1 = (featherHeight 16 : ℝ) * 0.8 / 7 ∧
      leftBarbLen 16 (7 - 1) = leftBarbLen 16 1 ∧ leftBarbLen 16 1 ≤ leftBarbLen 16 2 := by
  have h := C6_barbs 16 (by norm_num)
  exact ⟨by norm_num, (h.2.1 1).1, h.2.2.1 1, h.2.2.2.1 1 (by norm_num),
    h.2.2.2.2 1 2 (by norm_num) (by norm_num)⟩

/-! ### Claim C7 -/

/-- Claim C7: `create_icon(16)` is well-defined despite small-size truncation:
corner radius 16//8 = 2, shaft width max(2, 16//40) = 2 ≥ 1, the other derived
dimensions evaluate (feather height 8, feather width 2, barb width 1), and the
renderer returns a 16×16 RGBA image (the checked entry point succeeds). -/
theorem C7_size16 :
    cornerRadius 16 = 2 ∧ shaftWidth 16 = 2 ∧ 1 ≤ shaftWidth 16 ∧
      featherHeight 16 = 8 ∧ featherWidth 16 = 2 ∧ barbWidth 16 = 1 ∧
      (createIcon 16).width = 16 ∧ (createIcon 16).height = 16 ∧
      createIconChecked 16 = some (createIcon 16) := by
  refine ⟨by decide, by decide, by decide, featherHeight_16, featherWidth_16, by decide,
    rfl, rfl, ?_⟩
  rw [createIconChecked, if_neg (by norm_num)]
  rfl

/-! ### Claim C8 -/

/-- Claim C8, as stated, is false for negative sizes: `create_icon(-1)` does
not return a degenerate image — `Image.new` raises ValueError for a negative
dimension and the script has no handler, so the call errors out. -/
theorem C8_counterexample :
    createIconChecked (-1) = none ∧ ¬ ∃ img, createIconChecked (-1) = some img := by
  constructor
  · rw [createIconChecked, if_pos (by norm_num)]
  · rintro ⟨img, himg⟩
    rw [createIconChecked, if_pos (by norm_num)] at himg
    exact Option.noConfusion himg

/-- Claim C8 (amended): `create_icon` contains no guard on its size argument
and handles no errors; size 0 yields a degenerate, empty 0×0 image (the draw
calls have no canvas pixels to touch), while a negative size propagates an
unhandled ValueError from image creation rather than returning an image. -/
theorem C8_no_guard :
    createIconChecked 0 = some (createIcon 0) ∧ (createIcon 0).width = 0 ∧
      (createIcon 0).height = 0 ∧ (∀ x y : ℤ, ¬ inCanvas 0 0 x y) ∧
      (∀ z : ℤ, z < 0 → createIconChecked z = none) := by
  refine ⟨?_, rfl, rfl, ?_, ?_⟩
  · rw [createIconChecked, if_neg (by norm_num)]
    rfl
  · rintro x y ⟨h1, h2, h3, h4⟩
    simp only [Nat.cast_zero] at h2
    omega
  · intro z hz
    rw [createIconChecked, if_pos hz]

/-- Witness for C8_no_guard at size -1. -/
theorem C8_witness : (-1 : ℤ) < 0 ∧ createIconChecked (-1) = none :=
  ⟨by norm_num, C8_no_guard.2.2.2.2 (-1) (by norm_num)⟩

/-! ### Claim C4 -/

/-- Claim C4: both renderers and the driver are deterministic — the embedding
is a pure function of the size (the script samples no randomness, clock or
environment), so any two invocations agree and two driver runs write
identical file contents. -/
theorem C4_deterministic :
    (∀ s : ℕ, createIcon s = createIcon s) ∧
      (∀ s : ℕ, createMenuBarIcon s = createMenuBarIcon s) ∧
      (∀ u v : Unit, runDriver u = runDriver v) :=
  ⟨fun _ => rfl, fun _ => rfl, fun _ _ => rfl⟩

/-! ### Claims C3 and C9: the driver -/

theorem iconFileNames_eval :
    iconFileName 16 = "icon_16x16.png" ∧ icon2xFileName 16 = "icon_16x16@2x.png" ∧
    iconFileName 32 = "icon_32x32.png" ∧ icon2xFileName 32 = "icon_32x32@2x.png" ∧
    iconFileName 64 = "icon_64x64.png" ∧ icon2xFileName 64 = "icon_64x64@2x.png" ∧
    iconFileName 128 = "icon_128x128.png" ∧ icon2xFileName 128 = "icon_128x128@2x.png" ∧
    iconFileName 256 = "icon_256x256.png" ∧ icon2xFileName 256 = "icon_256x256@2x.png" ∧
    iconFileName 512 = "icon_512x512.png" ∧ icon2xFileName 512 = "icon_512x512@2x.png" ∧
    iconFileName 1024 = "icon_1024x1024.png" := by
  decide

/-- Claim C3: after a full run the AppIcon directory holds exactly 13 files —
`icon_NxN.png` containing `create_icon(N)` for the seven sizes, plus
`icon_NxN@2x.png` containing `create_icon(2N)` for the six sizes ≤ 512 — and
the MenuBarIcon directory holds exactly the 3 files `menubar_16.png`,
`menubar_16@2x.png`, `menubar_16@3x.png` rendered at sizes 16, 32, 48; all
file names are distinct, so no write overwrites another. -/
theorem C3_driver_files :
    (driverWrites.filter fun fw => fw.dir == appIconDir).map FileWrite.name =
      ["icon_16x16.png", "icon_16x16@2x.png", "icon_32x32.png", "icon_32x32@2x.png",
       "icon_64x64.png", "icon_64x64@2x.png", "icon_128x128.png", "icon_128x128@2x.png",
       "icon_256x256.png", "icon_256x256@2x.png", "icon_512x512.png", "icon_512x512@2x.png",
       "icon_1024x1024.png"] ∧
    (driverWrites.filter fun fw => fw.dir == appIconDir).map FileWrite.content =
      [createIcon 16, createIcon 32, createIcon 32, createIcon 64, createIcon 64,
       createIcon 128, createIcon 128, createIcon 256, createIcon 256, createIcon 512,
       createIcon 512, createIcon 1024, createIcon 1024] ∧
    (driverWrites.filter fun fw => fw.dir == appIconDir).length = 13 ∧
    (driverWrites.filter fun fw => fw.dir == menuIconsetDir).map FileWrite.name =
      ["menubar_16.png", "menubar_16@2x.png", "menubar_16@3x.png"] ∧
    (driverWrites.filter fun fw => fw.dir == menuIconsetDir).map FileWrite.content =
      [createMenuBarIcon 16, createMenuBarIcon 32, createMenuBarIcon 48] ∧
    (driverWrites.filter fun fw => fw.dir == menuIconsetDir).length = 3 ∧
    (driverWrites.map FileWrite.name).Nodup := by
  obtain ⟨e1, e2, e3, e4, e5, e6, e7, e8, e9, e10, e11, e12, e13⟩ := iconFileNames_eval
  refine ⟨?_, ?_, ?_, ?_, ?_, ?_, ?_⟩ <;>
    simp [driverWrites, sizes, appIconDir, menuIconsetDir,
      e1, e2, e3, e4, e5, e6, e7, e8, e9, e10, e11, e12, e13] <;>
    decide

/-- Claim C9: for every size N ≤ 512 in the list the driver writes the @2x
file with content `create_icon(2N)`; in particular `icon_512x512@2x.png` and
`icon_1024x1024.png` both contain `create_icon(1024)` — the same image. -/
theorem C9_2x_contents :
    (∀ n ∈ sizes, n ≤ 512 →
      ({ dir := appIconDir, name := icon2xFileName n, content := createIcon (n * 2) } :
        FileWrite) ∈ driverWrites) ∧
    contentAt appIconDir "icon_512x512@2x.png" = some (createIcon 1024) ∧
    contentAt appIconDir "icon_1024x1024.png" = some (createIcon 1024) := by
  obtain ⟨e1, e2, e3, e4, e5, e6, e7, e8, e9, e10, e11, e12, e13⟩ := iconFileNames_eval
  refine ⟨?_, ?_, ?_⟩
  · intro n hn hle
    rw [driverWrites]
    apply List.mem_append_left
    rw [List.mem_flatMap]
    exact ⟨n, hn, by simp [hle]⟩
  · show ((driverWrites.find? fun fw => fw.dir == appIconDir &&
      fw.name == "icon_512x512@2x.png").map FileWrite.content) = some (createIcon 1024)
    simp [driverWrites, sizes, appIconDir, menuIconsetDir,
      e1, e2, e3, e4, e5, e6, e7, e8, e9, e10, e11, e12, e13]
  · show ((driverWrites.find? fun fw => fw.dir == appIconDir &&
      fw.name == "icon_1024x1024.png").map FileWrite.content) = some (createIcon 1024)
    simp [driverWrites, sizes, appIconDir, menuIconsetDir,
      e1, e2, e3, e4, e5, e6, e7, e8, e9, e10, e11, e12, e13]

/-- Witness for C9_2x_contents at n = 512. -/
theorem C9_witness :
    512 ∈ sizes ∧ 512 ≤ 512 ∧
      ({ dir := appIconDir, name := icon2xFileName 512, content := createIcon (512 * 2) } :
        FileWrite) ∈ driverWrites :=
  ⟨by norm_num [sizes], by norm_num,
    C9_2x_contents.1 512 (by norm_num [sizes]) (by norm_num)⟩

/-! ### Claim C10 -/

/-- Claim C10: `create_menu_bar_icon` draws no background at all — its plan is
exactly the shaft line, the 12-point vane polygon and two dots of the same
radius max(1, size//16), all opaque white, with no gradient rows and no mask;
the image starts fully transparent, so every pixel not covered by one of the
four primitives keeps alpha 0. -/
theorem C10_menu_bar (s : ℕ) (hs : 0 < s) :
    menuOps s = [menuShaftOp s, menuVaneOp s, menuDotOp s 0, menuDotOp s 1] ∧
    (menuVanePoints s).length = 12 ∧
    (menuShaftOp s).color = ⟨255, 255, 255, 255⟩ ∧
    (menuVaneOp s).color = ⟨255, 255, 255, 255⟩ ∧
    menuDotOp s 0 = DrawOp.ellipse (centerX s + (s : ℤ) / 4 - menuDotSize s)
      (centerY s - (s : ℤ) / 12 - menuDotSize s) (centerX s + (s : ℤ) / 4 + menuDotSize s)
      (centerY s - (s : ℤ) / 12 + menuDotSize s) ⟨255, 255, 255, 255⟩ ∧
    menuDotOp s 1 = DrawOp.ellipse (centerX s + (s : ℤ) / 5 - menuDotSize s)
      (centerY s + (s : ℤ) / 8 - menuDotSize s) (centerX s + (s : ℤ) / 5 + menuDotSize s)
      (centerY s + (s : ℤ) / 8 + menuDotSize s) ⟨255, 255, 255, 255⟩ ∧
    (∀ x y : ℤ,
      ¬ (inCanvas s s x y ∧ (menuShaftOp s).covers x y) →
      ¬ (inCanvas s s x y ∧ (menuVaneOp s).covers x y) →
      ¬ (inCanvas s s x y ∧ (menuDotOp s 0).covers x y) →
      ¬ (inCanvas s s x y ∧ (menuDotOp s 1).covers x y) →
      (createMenuBarIcon s).alphaAt x y = 0) := by
  refine ⟨rfl, by simp [menuVanePoints], rfl, rfl, rfl, rfl, ?_⟩
  intro x y h1 h2 h3 h4
  show (((menuOps s).foldl (applyOp s s) fun _ _ => blankRGBA) x y).a = 0
  rw [foldl_untouched]
  · rfl
  · intro op hop
    simp only [menuOps, List.mem_cons, List.not_mem_nil, or_false] at hop
    rcases hop with rfl | rfl | rfl | rfl
    · exact ⟨by simp [menuShaftOp, DrawOp.isDraw], h1⟩
    · exact ⟨by simp [menuVaneOp, DrawOp.isDraw], h2⟩
    · exact ⟨by simp [menuDotOp, DrawOp.isDraw], h3⟩
    · exact ⟨by simp [menuDotOp, DrawOp.isDraw], h4⟩

theorem menuFeatherHeight_16 : menuFeatherHeight 16 = 10 := by
  rw [menuFeatherHeight_eq]; decide

theorem menuFeatherWidth_16 : menuFeatherWidth 16 = 3 := by
  rw [menuFeatherWidth_eq, menuFeatherHeight_16]; decide

theorem menuVane_16_x_ge : ∀ v ∈ menuVanePoints 16, (5 : ℝ) ≤ v.1 := by
  intro v hv
  have hfx := featherX_16
  simp only [menuVanePoints, List.mem_append, List.mem_map, List.mem_range] at hv
  rcases hv with ⟨i, hi, rfl⟩ | ⟨i, hi, rfl⟩
  · have hb := pyInt_mul_sin_bounds (menuFeatherWidth 16)
      (by rw [menuFeatherWidth_16]; norm_num) (progress5 i * Real.pi) 0.6
      (sin_progress5_nonneg (by omega)) (by norm_num)
    rw [floor_six_tenths, menuFeatherWidth_16] at hb
    simp only [menuLeftPoint, menuFeatherWidth_16]
    have h5 : (5 : ℤ) ≤ featherX 16 -
        pyInt (((3 : ℤ) : ℝ) * Real.sin (progress5 i * Real.pi) * 0.6) := by omega
    exact_mod_cast h5
  · have hb := pyInt_mul_sin_bounds (menuFeatherWidth 16)
      (by rw [menuFeatherWidth_16]; norm_num) (progress5 (5 - i) * Real.pi) 0.3
      (sin_progress5_nonneg (by omega)) (by norm_num)
    rw [floor_three_tenths, menuFeatherWidth_16] at hb
    have hmfh := menuFeatherHeight_16
    simp only [menuRightPoint, menuFeatherWidth_16]
    have h5 : (5 : ℤ) ≤ featherX 16 +
        pyInt (((3 : ℤ) : ℝ) * Real.sin (progress5 (5 - i) * Real.pi) * 0.3) +
        menuFeatherHeight 16 / 12 := by omega
    exact_mod_cast h5

/-- Witness for C10_menu_bar at size 16 and pixel (0, 0): none of the four
primitives reaches the top-left corner, which therefore stays transparent. -/
theorem C10_witness : 0 < 16 ∧ (createMenuBarIcon 16).alphaAt 0 0 = 0 := by
  refine ⟨by norm_num, (C10_menu_bar 16 (by norm_num)).2.2.2.2.2.2 0 0 ?_ ?_ ?_ ?_⟩
  · rintro ⟨-, hcov⟩
    simp only [menuShaftOp] at hcov
    have hb := seg_covers_x_bounds (by simp [menuShaftWidth]) hcov
    have hfx := featherX_16
    have hmfh := menuFeatherHeight_16
    have hw : menuShaftWidth 16 = 1 := by decide
    omega
  · rintro ⟨-, hcov⟩
    simp only [menuVaneOp] at hcov
    have := poly_covers_x_ge menuVane_16_x_ge hcov
    norm_num at this
  · rintro ⟨-, hcov⟩
    simp only [menuDotOp, menuDotDX, menuDotDY, DrawOp.covers] at hcov
    revert hcov
    decide
  · rintro ⟨-, hcov⟩
    simp only [menuDotOp, menuDotDX, menuDotDY, DrawOp.covers] at hcov
    revert hcov
    decide
